import Mathlib

/-!
Verification development for the AI diet-plan HTTP service (`app.py`).

The embedding models, from the source:
 - the Python string operations used by `parse_gemini_response`
   (`in`, `str.find`, slicing, `str.strip`) over `List Char`;
 - `json.loads` as a character-level JSON parser into a `Json` tree;
 - the pydantic request/response models and their validation semantics
   (pydantic v2 lax mode, as used by the repository);
 - the prompt builders, the two POST handlers with their error boundary,
   and the startup credential check.
-/

/-! ## Python string primitives -/

/-- Whitespace stripped by Python `str.strip()` (common ASCII whitespace). -/
def isPyWs (c : Char) : Bool :=
  c = ' ' || c = '\t' || c = '\n' || c = '\r' || c = '\x0b' || c = '\x0c'

/-- Python `str.strip()`: drop leading and trailing whitespace. -/
def pyStrip (s : List Char) : List Char :=
  ((s.dropWhile isPyWs).reverse.dropWhile isPyWs).reverse

/-- Does `pat` occur at the head of `s`? -/
def beginsWith : List Char → List Char → Bool
  | [], _ => true
  | _ :: _, [] => false
  | p :: ps, c :: cs => p == c && beginsWith ps cs

/-- Index of the first occurrence of `pat` in `s`, if any (leftmost match). -/
def firstMatch (pat : List Char) : List Char → Option Nat
  | [] => if beginsWith pat [] then some 0 else none
  | c :: cs => if beginsWith pat (c :: cs) then some 0 else (firstMatch pat cs).map (· + 1)

/-- Python `pat in s` substring test. -/
def containsSub (s pat : List Char) : Bool :=
  (firstMatch pat s).isSome

/-- Normalize a Python index against a length `n`: negative indices count from
the end, and indices are clamped into `[0, n]`. -/
def normIdx (n : Nat) (i : Int) : Nat :=
  if i < 0 then (i + n).toNat else min i.toNat n

/-- Python `s.find(pat, start)`: absolute index of the first occurrence of
`pat` at or after `start`, or `-1` when there is none. -/
def pyFindI (s pat : List Char) (start : Int) : Int :=
  match firstMatch pat (s.drop (normIdx s.length start)) with
  | some k => ((normIdx s.length start + k : Nat) : Int)
  | none => -1

/-- Python slice `s[a:b]` (for integer bounds, step 1). -/
def pySlice (s : List Char) (a b : Int) : List Char :=
  (s.take (normIdx s.length b)).drop (normIdx s.length a)

/-- The markdown fence marker `` ``` ``. -/
def fence3 : List Char := "\x60\x60\x60".data

/-- The JSON-tagged fence marker `` ```json ``. -/
def fenceJson : List Char := "\x60\x60\x60json".data

/-! ## JSON values and a model of `json.loads` -/

/-- A parsed JSON value, as produced by `json.loads`: objects are key/value
binding lists (later duplicates override earlier ones, as in a Python dict);
integer literals stay integers (`jint`), other numeric literals become
`jnum` rationals (modeling Python floats by their exact decimal value). -/
inductive Json where
  | jnull : Json
  | jbool : Bool → Json
  | jint : Int → Json
  | jnum : ℚ → Json
  | jstr : List Char → Json
  | jarr : List Json → Json
  | jobj : List (List Char × Json) → Json

/-- JSON whitespace skipped by the decoder. -/
def isJsonWs (c : Char) : Bool :=
  c = ' ' || c = '\t' || c = '\n' || c = '\r'

/-- Skip JSON whitespace. -/
def skipWs (s : List Char) : List Char := s.dropWhile isJsonWs

def msgExpectingValue : List Char := "Expecting value".data

def msgUnterminated : List Char := "Unterminated string".data

def msgBadEscape : List Char := "Invalid escape".data

def msgExpectingColon : List Char := "Expecting colon delimiter".data

def msgExpectingComma : List Char := "Expecting comma delimiter".data

def msgExpectingKey : List Char := "Expecting property name enclosed in double quotes".data

def msgExtraData : List Char := "Extra data".data

def msgDepth : List Char := "Nesting depth exceeded".data

/-- Value of a hexadecimal digit. -/
def hexVal (c : Char) : Option Nat :=
  if '0' ≤ c ∧ c ≤ '9' then some (c.toNat - 48)
  else if 'a' ≤ c ∧ c ≤ 'f' then some (c.toNat - 87)
  else if 'A' ≤ c ∧ c ≤ 'F' then some (c.toNat - 55)
  else none

/-- Single-character JSON string escapes. -/
def escChar (c : Char) : Option Char :=
  if c = '"' then some '"'
  else if c = '\\' then some '\\'
  else if c = '/' then some '/'
  else if c = 'b' then some '\x08'
  else if c = 'f' then some '\x0c'
  else if c = 'n' then some '\n'
  else if c = 'r' then some '\r'
  else if c = 't' then some '\t'
  else none

/-- Parse the body of a JSON string literal (after the opening quote),
returning the decoded characters and the rest of the input. -/
def parseStrBody : List Char → Except (List Char) (List Char × List Char)
  | [] => .error msgUnterminated
  | '"' :: rest => .ok ([], rest)
  | '\\' :: rest =>
    match rest with
    | [] => .error msgUnterminated
    | 'u' :: h1 :: h2 :: h3 :: h4 :: rest2 =>
      match hexVal h1, hexVal h2, hexVal h3, hexVal h4 with
      | some a, some b, some c, some d =>
        (parseStrBody rest2).map (fun p => (Char.ofNat (a * 4096 + b * 256 + c * 16 + d) :: p.1, p.2))
      | _, _, _, _ => .error msgBadEscape
    | e :: rest2 =>
      match escChar e with
      | some c => (parseStrBody rest2).map (fun p => (c :: p.1, p.2))
      | none => .error msgBadEscape
  | c :: rest => (parseStrBody rest).map (fun p => (c :: p.1, p.2))

/-- Is `c` a decimal digit? -/
def isDig (c : Char) : Bool := '0' ≤ c && c ≤ '9'

/-- Split off a maximal run of leading decimal digits. -/
def takeDigits : List Char → (List Char × List Char)
  | [] => ([], [])
  | c :: cs =>
    if isDig c then
      let p := takeDigits cs
      (c :: p.1, p.2)
    else ([], c :: cs)

/-- Decimal digit run to a natural number. -/
def digitsToNat (l : List Char) : Nat :=
  l.foldl (fun a c => a * 10 + (c.toNat - 48)) 0

/-- Optional fraction part `.digits` of a JSON number; produces the fraction
digits when present, leaving the input untouched otherwise. -/
def parseFrac : List Char → Option (List Char) × List Char
  | '.' :: r =>
    match takeDigits r with
    | ([], _) => (none, '.' :: r)
    | (fs, r2) => (some fs, r2)
  | s => (none, s)

/-- Optional exponent part `[eE][+-]?digits` of a JSON number. -/
def parseExp : List Char → Option Int × List Char
  | c :: r =>
    if c = 'e' || c = 'E' then
      match r with
      | '+' :: r2 =>
        (match takeDigits r2 with
         | ([], _) => (none, c :: r)
         | (es, r3) => (some ((digitsToNat es : Int)), r3))
      | '-' :: r2 =>
        (match takeDigits r2 with
         | ([], _) => (none, c :: r)
         | (es, r3) => (some (-(digitsToNat es : Int)), r3))
      | _ =>
        (match takeDigits r with
         | ([], _) => (none, c :: r)
         | (es, r3) => (some ((digitsToNat es : Int)), r3))
    else (none, c :: r)
  | [] => (none, [])

/-- Parse a JSON number (sign, integer part, optional fraction and exponent).
Integer literals produce `jint`; a fraction or exponent produces `jnum`.
Like the CPython scanner, a leading `0` is not followed by more integer-part
digits (so `01` parses as `0` with `1` left over). -/
def parseNum (s : List Char) : Except (List Char) (Json × List Char) :=
  let sp := match s with
    | '-' :: r => (true, r)
    | _ => (false, s)
  match sp.2 with
  | [] => .error msgExpectingValue
  | c :: cs =>
    if isDig c then
      let ip : List Char × List Char := if c = '0' then (['0'], cs) else takeDigits sp.2
      let fp := parseFrac ip.2
      let ep := parseExp fp.2
      match fp.1, ep.1 with
      | none, none =>
        .ok (.jint (if sp.1 then -(digitsToNat ip.1 : Int) else (digitsToNat ip.1 : Int)), ip.2)
      | fdsO, exO =>
        let fds := fdsO.getD []
        let ex := exO.getD 0
        let mag : ℚ := ((digitsToNat ip.1 : ℚ) + (digitsToNat fds : ℚ) / (10 : ℚ) ^ fds.length)
          * (10 : ℚ) ^ ex
        .ok (.jnum (if sp.1 then -mag else mag), ep.2)
    else .error msgExpectingValue

mutual

/-- Parse one JSON value (fuel-based recursion; the fuel given by `jsonParse`
always suffices for its input). Mirrors the `json.loads` grammar. -/
def parseVal : Nat → List Char → Except (List Char) (Json × List Char)
  | 0, _ => .error msgDepth
  | Nat.succ fuel, s =>
    match skipWs s with
    | 'n' :: 'u' :: 'l' :: 'l' :: r => .ok (.jnull, r)
    | 't' :: 'r' :: 'u' :: 'e' :: r => .ok (.jbool true, r)
    | 'f' :: 'a' :: 'l' :: 's' :: 'e' :: r => .ok (.jbool false, r)
    | '"' :: r => (parseStrBody r).map (fun p => (.jstr p.1, p.2))
    | '[' :: r =>
      (match skipWs r with
       | ']' :: r2 => .ok (.jarr [], r2)
       | _ => (parseElems fuel r).map (fun p => (.jarr p.1, p.2)))
    | '{' :: r =>
      (match skipWs r with
       | '}' :: r2 => .ok (.jobj [], r2)
       | _ => (parseMems fuel r).map (fun p => (.jobj p.1, p.2)))
    | t => parseNum t

/-- Parse the comma-separated elements of a JSON array, up to `]`. -/
def parseElems : Nat → List Char → Except (List Char) (List Json × List Char)
  | 0, _ => .error msgDepth
  | Nat.succ fuel, s =>
    match parseVal fuel s with
    | .error e => .error e
    | .ok (v, r) =>
      match skipWs r with
      | ',' :: r2 =>
        (match parseElems fuel r2 with
         | .error e => .error e
         | .ok (l, r3) => .ok (v :: l, r3))
      | ']' :: r2 => .ok ([v], r2)
      | _ => .error msgExpectingComma

/-- Parse the comma-separated members of a JSON object, up to `}`. -/
def parseMems : Nat → List Char → Except (List Char) (List (List Char × Json) × List Char)
  | 0, _ => .error msgDepth
  | Nat.succ fuel, s =>
    match skipWs s with
    | '"' :: r =>
      (match parseStrBody r with
       | .error e => .error e
       | .ok (k, r1) =>
         match skipWs r1 with
         | ':' :: r2 =>
           (match parseVal fuel r2 with
            | .error e => .error e
            | .ok (v, r3) =>
              match skipWs r3 with
              | ',' :: r4 =>
                (match parseMems fuel r4 with
                 | .error e => .error e
                 | .ok (l, r5) => .ok ((k, v) :: l, r5))
              | '}' :: r4 => .ok ([(k, v)], r4)
              | _ => .error msgExpectingComma)
         | _ => .error msgExpectingColon)
    | _ => .error msgExpectingKey

end

/-- Model of `json.loads`: parse one JSON document, allowing surrounding
whitespace, and reject trailing data. Errors carry a decode message. -/
def jsonParse (s : List Char) : Except (List Char) Json :=
  match parseVal (s.length + s.length + 8) s with
  | .error e => .error e
  | .ok (v, rest) => if skipWs rest = [] then .ok v else .error msgExtraData

/-! ## `parse_gemini_response` -/

/-- The failure raised by `parse_gemini_response`: the `ValueError` message
(prefixed `Failed to parse AI response: ` plus the decode error message)
together with the 500-character prefix of the offending text logged for
diagnostics. -/
structure ParseErr where
  msg : List Char
  content : List Char

def parseFailNote : List Char := "Failed to parse AI response: ".data

/-- The fence-stripping step of `parse_gemini_response` (app.py lines
256-263): slice between the first fence marker and the next one, if any. -/
def extractPayload (text : List Char) : List Char :=
  if containsSub text fenceJson then
    pyStrip (pySlice text (pyFindI text fenceJson 0 + 7)
      (pyFindI text fence3 (pyFindI text fenceJson 0 + 7)))
  else if containsSub text fence3 then
    pyStrip (pySlice text (pyFindI text fence3 0 + 3)
      (pyFindI text fence3 (pyFindI text fence3 0 + 3)))
  else text

/-- `parse_gemini_response`: strip an optional markdown fence, then
`json.loads`; a decode failure becomes a `ParseErr` (a `ValueError` whose
message embeds the decode message, with `text[:500]` logged). -/
def parse_gemini_response (text : List Char) : Except ParseErr Json :=
  match jsonParse (extractPayload text) with
  | .ok v => .ok v
  | .error e => .error ⟨parseFailNote ++ e, (extractPayload text).take 500⟩

/-! ## Pydantic value coercions (v2 lax mode, as the repository uses) -/

/-- Look a key up in a parsed JSON object; as in a Python dict built by
`json.loads`, a later duplicate binding overrides an earlier one. -/
def jlookup : List (List Char × Json) → List Char → Option Json
  | [], _ => none
  | (k1, v) :: rest, k =>
    match jlookup rest k with
    | some r => some r
    | none => if k1 = k then some v else none

/-- Key lookup through a `Json` value (objects only). -/
def jget (v : Json) (k : List Char) : Option Json :=
  match v with
  | .jobj l => jlookup l k
  | _ => none

def asObj : Json → Option (List (List Char × Json))
  | .jobj l => some l
  | _ => none

def asArr : Json → Option (List Json)
  | .jarr l => some l
  | _ => none

/-- A `str` field accepts only JSON strings (pydantic v2 does not coerce
numbers to `str`). -/
def asStr : Json → Option (List Char)
  | .jstr s => some s
  | _ => none

/-- An optionally signed run of digits, as parsed by the integer parser that
pydantic-core applies to cleaned strings. -/
def parseSignedDigits (s : List Char) : Option Int :=
  let sp : Bool × List Char := match s with
    | '-' :: r => (true, r)
    | '+' :: r => (false, r)
    | _ => (false, s)
  match sp.2 with
  | [] => none
  | l => if l.all isDig then some (if sp.1 then -(digitsToNat l : Int) else (digitsToNat l : Int)) else none

/-- pydantic-core `strip_decimal_zeros`: when the string has a decimal point
followed only by zeros, drop that suffix; otherwise nothing. -/
def stripDecimalZeros : List Char → Option (List Char)
  | [] => none
  | '.' :: rest => if rest.all (· == '0') then some [] else none
  | c :: rest => (stripDecimalZeros rest).map (c :: ·)

/-- pydantic-core `strip_underscores`: when the string contains underscores,
remove them all; otherwise nothing. -/
def stripUnderscores (s : List Char) : Option (List Char) :=
  if s.contains '_' then some (s.filter (· ≠ '_')) else none

/-- Pydantic v2 lax `str -> int` coercion (pydantic-core `str_as_int`): trim
whitespace, try a plain signed-digit parse, then retry once after stripping
an all-zeros decimal part (`"450.0"` -> 450), then retry once after removing
underscores (`"1_000"` -> 1000). -/
def strToInt (s : List Char) : Option Int :=
  let t := pyStrip s
  if t = [] then none
  else
    match parseSignedDigits t with
    | some n => some n
    | none =>
      match stripDecimalZeros t with
      | some t2 => parseSignedDigits t2
      | none =>
        match stripUnderscores t with
        | some t3 => parseSignedDigits t3
        | none => none

/-- An `int` field: accepts JSON integers, integral floats, and numeric
strings (pydantic v2 lax mode); rejects everything else. -/
def asInt : Json → Option Int
  | .jint n => some n
  | .jnum q => if q.den = 1 then some q.num else none
  | .jstr s => strToInt s
  | _ => none

/-- Pydantic v2 lax `str -> float` coercion, modeled for optionally signed
digits with an optional decimal part (the exponent and inf/nan forms of the
underlying f64 parser have no exact rational reading and are left out; the
model uses this only where accepting fewer strings cannot weaken a
statement). -/
def strToRat (s : List Char) : Option ℚ :=
  let t := pyStrip s
  let sp : Bool × List Char := match t with
    | '-' :: r => (true, r)
    | '+' :: r => (false, r)
    | _ => (false, t)
  match takeDigits sp.2 with
  | ([], _) => none
  | (ds, rest) =>
    let ipq : ℚ := (digitsToNat ds : ℚ)
    match rest with
    | [] => some (if sp.1 then -ipq else ipq)
    | '.' :: r2 =>
      (match takeDigits r2 with
       | (fs, []) =>
         let v : ℚ := ipq + (digitsToNat fs : ℚ) / (10 : ℚ) ^ fs.length
         some (if sp.1 then -v else v)
       | _ => none)
    | _ => none

/-- A `float` field: accepts JSON numbers and numeric strings. -/
def asFloat : Json → Option ℚ
  | .jint n => some ((n : Int) : ℚ)
  | .jnum q => some q
  | .jstr s => strToRat s
  | _ => none

/-- All elements of the list must be JSON strings. -/
def allStr : List Json → Option (List (List Char))
  | [] => some []
  | .jstr s :: rest => (allStr rest).map (s :: ·)
  | _ => none

/-- A `List[str]` field. -/
def asStrList : Json → Option (List (List Char))
  | .jarr l => allStr l
  | _ => none

/-- Validate every element of a JSON list. -/
def optMapList {α : Type} (f : Json → Option α) : List Json → Option (List α)
  | [] => some []
  | x :: xs =>
    match f x, optMapList f xs with
    | some a, some l => some (a :: l)
    | _, _ => none

/-! ## Response and request models (from the pydantic model declarations) -/

def kDailyPlan : List Char := "daily_plan".data
def kTotalCalories : List Char := "total_calories".data
def kMeals : List Char := "meals".data
def kBreakfast : List Char := "breakfast".data
def kLunch : List Char := "lunch".data
def kDinner : List Char := "dinner".data
def kItems : List Char := "items".data
def kCalories : List Char := "calories".data
def kSnacks : List Char := "snacks".data
def kMealNutrition : List Char := "meal_nutrition".data
def kMacros : List Char := "macros".data
def kProtein : List Char := "protein".data
def kCarbs : List Char := "carbs".data
def kFat : List Char := "fat".data
def kBreakdown : List Char := "breakdown".data
def kItem : List Char := "item".data
def kQuantity : List Char := "quantity".data
def kFoods : List Char := "foods".data
def kName : List Char := "name".data
def kAge : List Char := "age".data
def kGoal : List Char := "goal".data
def kHeight : List Char := "height".data
def kCurrentWeight : List Char := "current_weight".data
def kTargetWeight : List Char := "target_weight".data
def kHealthConditions : List Char := "health_conditions".data
def kRegion : List Char := "region".data
def kCuisinePreference : List Char := "cuisine_preference".data
def kAllergies : List Char := "allergies".data

structure MealItems where
  items : List (List Char)
  calories : Int

structure Meals where
  breakfast : MealItems
  lunch : MealItems
  dinner : MealItems

structure DailyPlan where
  total_calories : Int
  meals : Meals
  snacks : List (List Char)

structure DietPlanResponse where
  daily_plan : DailyPlan

structure FoodItem where
  item : List Char
  quantity : List Char

structure MacroNutrients where
  protein : ℚ
  carbs : ℚ
  fat : ℚ

structure NutritionBreakdown where
  item : List Char
  calories : Int
  protein : ℚ
  carbs : ℚ
  fat : ℚ

structure MealNutrition where
  total_calories : Int
  macros : MacroNutrients
  breakdown : List NutritionBreakdown

structure NutritionBreakdownResponse where
  meal_nutrition : MealNutrition

structure DietPlanRequest where
  name : List Char
  age : Int
  goal : List Char
  height : Int
  current_weight : ℚ
  target_weight : ℚ
  health_conditions : List (List Char)
  region : List Char
  cuisine_preference : List Char
  allergies : List (List Char)

structure NutritionRequest where
  foods : List FoodItem

/-- Pydantic validation of the `MealItems` model: both fields required. -/
def MealItems.validate (v : Json) : Option MealItems :=
  (asObj v).bind fun l =>
    ((jlookup l kItems).bind asStrList).bind fun its =>
      ((jlookup l kCalories).bind asInt).bind fun cal =>
        some ⟨its, cal⟩

/-- Pydantic validation of the `Meals` model: all three meals required. -/
def Meals.validate (v : Json) : Option Meals :=
  (asObj v).bind fun l =>
    ((jlookup l kBreakfast).bind MealItems.validate).bind fun b =>
      ((jlookup l kLunch).bind MealItems.validate).bind fun lu =>
        ((jlookup l kDinner).bind MealItems.validate).bind fun d =>
          some ⟨b, lu, d⟩

/-- Pydantic validation of the `DailyPlan` model: all fields required. -/
def DailyPlan.validate (v : Json) : Option DailyPlan :=
  (asObj v).bind fun l =>
    ((jlookup l kTotalCalories).bind asInt).bind fun tc =>
      ((jlookup l kMeals).bind Meals.validate).bind fun ms =>
        ((jlookup l kSnacks).bind asStrList).bind fun sn =>
          some ⟨tc, ms, sn⟩

/-- Pydantic validation of `DietPlanResponse` (`DietPlanResponse(**parsed)`). -/
def DietPlanResponse.validate (v : Json) : Option DietPlanResponse :=
  (asObj v).bind fun l =>
    ((jlookup l kDailyPlan).bind DailyPlan.validate).bind fun dp =>
      some ⟨dp⟩

/-- Pydantic validation of the `MacroNutrients` model. -/
def MacroNutrients.validate (v : Json) : Option MacroNutrients :=
  (asObj v).bind fun l =>
    ((jlookup l kProtein).bind asFloat).bind fun p =>
      ((jlookup l kCarbs).bind asFloat).bind fun c =>
        ((jlookup l kFat).bind asFloat).bind fun f =>
          some ⟨p, c, f⟩

/-- Pydantic validation of the `NutritionBreakdown` model. -/
def NutritionBreakdown.validate (v : Json) : Option NutritionBreakdown :=
  (asObj v).bind fun l =>
    ((jlookup l kItem).bind asStr).bind fun it =>
      ((jlookup l kCalories).bind asInt).bind fun cal =>
        ((jlookup l kProtein).bind asFloat).bind fun p =>
          ((jlookup l kCarbs).bind asFloat).bind fun c =>
            ((jlookup l kFat).bind asFloat).bind fun f =>
              some ⟨it, cal, p, c, f⟩

/-- Pydantic validation of the `MealNutrition` model. -/
def MealNutrition.validate (v : Json) : Option MealNutrition :=
  (asObj v).bind fun l =>
    ((jlookup l kTotalCalories).bind asInt).bind fun tc =>
      ((jlookup l kMacros).bind MacroNutrients.validate).bind fun mc =>
        ((jlookup l kBreakdown).bind
            (fun j => (asArr j).bind (optMapList NutritionBreakdown.validate))).bind fun bd =>
          some ⟨tc, mc, bd⟩

/-- Pydantic validation of `NutritionBreakdownResponse`. -/
def NutritionBreakdownResponse.validate (v : Json) : Option NutritionBreakdownResponse :=
  (asObj v).bind fun l =>
    ((jlookup l kMealNutrition).bind MealNutrition.validate).bind fun mn =>
      some ⟨mn⟩

/-- A list field that pydantic defaults to `[]` when the key is absent
(`Field(default=[])`); when present it must be a list of strings. -/
def optStrListField (l : List (List Char × Json)) (k : List Char) : Option (List (List Char)) :=
  match jlookup l k with
  | none => some []
  | some j => asStrList j

/-- Pydantic validation of the inbound `DietPlanRequest`: all scalar fields
required, `health_conditions` and `allergies` defaulting to `[]`. -/
def DietPlanRequest.validate (v : Json) : Option DietPlanRequest :=
  (asObj v).bind fun l =>
    ((jlookup l kName).bind asStr).bind fun nm =>
      ((jlookup l kAge).bind asInt).bind fun ag =>
        ((jlookup l kGoal).bind asStr).bind fun gl =>
          ((jlookup l kHeight).bind asInt).bind fun ht =>
            ((jlookup l kCurrentWeight).bind asFloat).bind fun cw =>
              ((jlookup l kTargetWeight).bind asFloat).bind fun tw =>
                (optStrListField l kHealthConditions).bind fun hc =>
                  ((jlookup l kRegion).bind asStr).bind fun rg =>
                    ((jlookup l kCuisinePreference).bind asStr).bind fun cp =>
                      (optStrListField l kAllergies).bind fun al =>
                        some ⟨nm, ag, gl, ht, cw, tw, hc, rg, cp, al⟩

/-- Pydantic serialization of `MealItems` in declaration order. -/
def MealItems.toJson (m : MealItems) : Json :=
  .jobj [(kItems, .jarr (m.items.map Json.jstr)), (kCalories, .jint m.calories)]

/-- Pydantic serialization of `Meals` in declaration order. -/
def Meals.toJson (m : Meals) : Json :=
  .jobj [(kBreakfast, m.breakfast.toJson), (kLunch, m.lunch.toJson), (kDinner, m.dinner.toJson)]

/-- Pydantic serialization of `DailyPlan` in declaration order. -/
def DailyPlan.toJson (d : DailyPlan) : Json :=
  .jobj [(kTotalCalories, .jint d.total_calories), (kMeals, d.meals.toJson),
    (kSnacks, .jarr (d.snacks.map Json.jstr))]

/-- Pydantic serialization of `DietPlanResponse` in declaration order. -/
def DietPlanResponse.toJson (r : DietPlanResponse) : Json :=
  .jobj [(kDailyPlan, r.daily_plan.toJson)]

/-- Modelled from the spec: the exact JSON shape of the diet-plan example in
the prompt (`meals` with the three fixed meals, string-list items and snacks,
integer calories, in the example's field order, with no extra fields).
A payload satisfying this parser "conforms to the response schema (the shape
given in the prompt's example format)". -/
def MealItems.strict : Json → Option MealItems
  | .jobj ((k1, .jarr l) :: (k2, .jint c) :: []) =>
    if k1 = kItems ∧ k2 = kCalories then (allStr l).map (fun ss => ⟨ss, c⟩) else none
  | _ => none

/-- Modelled from the spec: strict shape of the `meals` object in the
prompt's example format. -/
def Meals.strict : Json → Option Meals
  | .jobj ((k1, b) :: (k2, lu) :: (k3, d) :: []) =>
    if k1 = kBreakfast ∧ k2 = kLunch ∧ k3 = kDinner then
      (MealItems.strict b).bind fun b2 =>
        (MealItems.strict lu).bind fun lu2 =>
          (MealItems.strict d).bind fun d2 =>
            some ⟨b2, lu2, d2⟩
    else none
  | _ => none

/-- Modelled from the spec: strict shape of the `daily_plan` object in the
prompt's example format. -/
def DailyPlan.strict : Json → Option DailyPlan
  | .jobj ((k1, .jint tc) :: (k2, ms) :: (k3, .jarr sn) :: []) =>
    if k1 = kTotalCalories ∧ k2 = kMeals ∧ k3 = kSnacks then
      (Meals.strict ms).bind fun ms2 =>
        (allStr sn).bind fun sn2 =>
          some ⟨tc, ms2, sn2⟩
    else none
  | _ => none

/-- Modelled from the spec: strict shape of the whole diet-plan response in
the prompt's example format. -/
def DietPlanResponse.strict : Json → Option DietPlanResponse
  | .jobj ((k1, dp) :: []) =>
    if k1 = kDailyPlan then (DailyPlan.strict dp).map (fun d => ⟨d⟩) else none
  | _ => none

/-! ## Rendering used by the prompt f-strings -/

/-- Decimal rendering of a natural number. -/
def natStr (n : Nat) : List Char := Nat.toDigits 10 n

/-- Python `str()` of an `int`. -/
def intStr (n : Int) : List Char :=
  if n < 0 then '-' :: natStr n.natAbs else natStr n.toNat

/-- Decimal digits of the fractional part `num/den` (up to 17 digits,
trailing zeros trimmed by stopping at remainder 0). -/
def fracDigitLoop : Nat → Nat → Nat → List Char
  | 0, _, _ => []
  | Nat.succ fuel, num, den =>
    if num = 0 then []
    else Char.ofNat (num * 10 / den + 48) :: fracDigitLoop fuel (num * 10 % den) den

/-- Python `str()` of a nonnegative float, modeled on its exact rational
value: integer part, a dot, and the fraction digits (`80 -> "80.0"`). -/
def pyFloatStrNN (q : ℚ) : List Char :=
  let ip := q.num.toNat / q.den
  let fr := fracDigitLoop 17 (q.num.toNat % q.den) q.den
  natStr ip ++ '.' :: (if fr = [] then ['0'] else fr)

/-- Python `str()` of a float, modeled on its exact rational value. -/
def pyFloatStr (q : ℚ) : List Char :=
  if q < 0 then '-' :: pyFloatStrNN (-q) else pyFloatStrNN q

/-- Python `sep.join(xs)`. -/
def joinSep (sep : List Char) : List (List Char) → List Char
  | [] => []
  | [x] => x
  | x :: xs => x ++ sep ++ joinSep sep xs

def commaSep : List Char := ", ".data

def noneTok : List Char := "None".data

/-- `', '.join(xs) if xs else 'None'`: the rendering of the request's list
fields in the diet-plan prompt. -/
def renderStrList (xs : List (List Char)) : List Char :=
  if xs = [] then noneTok else joinSep commaSep xs

/-- `pat` occurs verbatim as a contiguous substring of `s`. -/
def occursIn (pat s : List Char) : Prop := ∃ a b, s = a ++ pat ++ b

/-! ## Prompt builders (transcribed from `construct_diet_plan_prompt` and
`construct_nutrition_prompt`) -/

def dpSeg0 : List Char := ("You are a professional nutritionist and dietitian. Generate a personalized 7-day diet plan as a JSON object.\n\nUser Profile:\n- Name: ").data

def dpSeg1 : List Char := ("\n- Age: ").data

def dpSeg1b : List Char := (" years\n- Goal: ").data

def dpSeg2 : List Char := ("\n- Height: ").data

def dpSeg2b : List Char := (" cm\n- Current Weight: ").data

def dpSeg3 : List Char := (" kg\n- Target Weight: ").data

def dpSeg3b : List Char := (" kg\n- Health Conditions: ").data

def dpSeg4 : List Char := ("\n- Region: ").data

def dpSeg4b : List Char := ("\n- Cuisine Preference: ").data

def dpSeg5 : List Char := ("\n- Allergies: ").data

def dpSeg6 : List Char := ("\n\nCalculate appropriate daily calorie intake based on the user\x27s goal and body metrics.\n\nRequirements:\n1. Generate a SINGLE representative daily plan (not 7 separate days)\n2. Total daily calories should be appropriate for the user\x27s goal\n3. Include breakfast, lunch, and dinner with specific items\n4. All food items must comply with cuisine preference and avoid allergens\n5. Use regional cuisine from ").data

def dpSeg7 : List Char := ("\n6. Consider health conditions when selecting foods\n7. Include 2-3 healthy snacks\n\nOutput Format (valid JSON only, no markdown):\n\x7b\n  \"daily_plan\": \x7b\n    \"total_calories\": <number>,\n    \"meals\": \x7b\n      \"breakfast\": \x7b\n        \"items\": [\"item1\", \"item2\"],\n        \"calories\": <number>\n      \x7d,\n      \"lunch\": \x7b\n        \"items\": [\"item1\", \"item2\", \"item3\"],\n        \"calories\": <number>\n      \x7d,\n      \"dinner\": \x7b\n        \"items\": [\"item1\", \"item2\"],\n        \"calories\": <number>\n      \x7d\n    \x7d,\n    \"snacks\": [\"snack1\", \"snack2\"]\n  \x7d\n\x7d\n\nImportant:\n- Return ONLY valid JSON, no additional text or explanation\n- Make the diet plan healthy, balanced, and appropriate for the goal\n- Ensure item names are clear and specific").data

/-- `construct_diet_plan_prompt`: the f-string of app.py lines 138-190,
with every user-supplied field interpolated in source order. -/
def construct_diet_plan_prompt (r : DietPlanRequest) : List Char :=
  dpSeg0 ++ r.name ++ dpSeg1 ++ intStr r.age ++ dpSeg1b ++ r.goal ++ dpSeg2
    ++ intStr r.height ++ dpSeg2b ++ pyFloatStr r.current_weight ++ dpSeg3
    ++ pyFloatStr r.target_weight ++ dpSeg3b ++ renderStrList r.health_conditions
    ++ dpSeg4 ++ r.region ++ dpSeg4b ++ r.cuisine_preference ++ dpSeg5
    ++ renderStrList r.allergies ++ dpSeg6 ++ r.region ++ dpSeg7

def nSeg0 : List Char := ("You are a professional nutritionist. Analyze the nutritional content of the following food items.\n\nFood Items:\n").data

def nSeg1 : List Char := ("\n\nProvide accurate nutritional breakdown including calories, protein, carbohydrates, and fats.\n\nOutput Format (valid JSON only, no markdown):\n\x7b\n  \"meal_nutrition\": \x7b\n    \"total_calories\": <number>,\n    \"macros\": \x7b\n      \"protein\": <number in grams>,\n      \"carbs\": <number in grams>,\n      \"fat\": <number in grams>\n    \x7d,\n    \"breakdown\": [\n      \x7b\n        \"item\": \"<name> (<quantity>)\",\n        \"calories\": <number>,\n        \"protein\": <number in grams>,\n        \"carbs\": <number in grams>,\n        \"fat\": <number in grams>\n      \x7d\n    ]\n  \x7d\n\x7d\n\nImportant:\n- Return ONLY valid JSON, no additional text or explanation\n- Provide realistic and accurate nutritional values\n- Ensure breakdown matches individual food items").data

def newlineSep : List Char := "\n".data

/-- `construct_nutrition_prompt`: the f-string of app.py lines 203-238. -/
def construct_nutrition_prompt (r : NutritionRequest) : List Char :=
  nSeg0
    ++ joinSep newlineSep (r.foods.map (fun f => ("- ").data ++ f.item ++ (": ").data ++ f.quantity))
    ++ nSeg1

/-! ## Request handlers and startup -/

/-- Outcome of a POST handler: a 200 response with the validated object, or
an `HTTPException`-shaped error response whose body is `{"detail": msg}`. -/
inductive HandlerResult (R : Type) where
  | ok : R → HandlerResult R
  | httpError : Nat → List Char → HandlerResult R

def genDietFailNote : List Char := "Failed to generate diet plan: ".data

def nutritionFailNote : List Char := "Failed to analyze nutrition: ".data

/-- The `TypeError` message raised by `Model(**parsed)` when `json.loads`
produced a non-dict. -/
def mappingErrNote : List Char := "argument after ** must be a mapping".data

/-- Stand-in for the pydantic `ValidationError` message text. -/
def dietValidationNote : List Char := "validation error for DietPlanResponse".data

/-- Stand-in for the pydantic `ValidationError` message text. -/
def nutritionValidationNote : List Char := "validation error for NutritionBreakdownResponse".data

/-- The POST `/generate_diet_plan` handler. `callModel` is the opaque
external model invocation (`model.generate_content(prompt).text`), an
`Except` whose error is the raised exception's message. Every stage failure
is caught at the handler boundary (`except ValueError` / `except Exception`)
and becomes an `HTTPException(500, detail)`. -/
def generate_diet_plan (callModel : List Char → Except (List Char) (List Char))
    (request : DietPlanRequest) : HandlerResult DietPlanResponse :=
  match callModel (construct_diet_plan_prompt request) with
  | .error e => .httpError 500 (genDietFailNote ++ e)
  | .ok text =>
    match parse_gemini_response text with
    | .error pe => .httpError 500 pe.msg
    | .ok parsed =>
      match parsed with
      | .jobj l =>
        (match DietPlanResponse.validate (.jobj l) with
         | some r => .ok r
         | none => .httpError 500 dietValidationNote)
      | _ => .httpError 500 (genDietFailNote ++ mappingErrNote)

/-- The POST `/nutrition_breakdown` handler; same boundary as
`generate_diet_plan`. -/
def nutrition_breakdown (callModel : List Char → Except (List Char) (List Char))
    (request : NutritionRequest) : HandlerResult NutritionBreakdownResponse :=
  match callModel (construct_nutrition_prompt request) with
  | .error e => .httpError 500 (nutritionFailNote ++ e)
  | .ok text =>
    match parse_gemini_response text with
    | .error pe => .httpError 500 pe.msg
    | .ok parsed =>
      match parsed with
      | .jobj l =>
        (match NutritionBreakdownResponse.validate (.jobj l) with
         | some r => .ok r
         | none => .httpError 500 nutritionValidationNote)
      | _ => .httpError 500 (nutritionFailNote ++ mappingErrNote)

/-- Startup failures: the missing-credential `ValueError` of app.py lines
30-32, or a re-raised model-initialization failure (lines 37-42). -/
inductive StartupErr where
  | configError : List Char → StartupErr
  | modelInitError : List Char → StartupErr

def keyRequiredNote : List Char := "GOOGLE_API_KEY environment variable is required".data

/-- The credential check at module import: `os.getenv("GOOGLE_API_KEY")`
followed by `if not GOOGLE_API_KEY: raise ValueError(...)` (an absent or
empty value is falsy). -/
def startupCheck (env : Option (List Char)) : Except StartupErr (List Char) :=
  match env with
  | none => .error (.configError keyRequiredNote)
  | some k => if k = [] then .error (.configError keyRequiredNote) else .ok k

/-- Module initialization: the credential check, then the Gemini model
construction (whose failure is re-raised). Only a successful initialization
yields a service able to serve requests; its value is the configured key. -/
def initService (env : Option (List Char)) (modelInit : Except (List Char) Unit) :
    Except StartupErr (List Char) :=
  match startupCheck env with
  | .error e => .error e
  | .ok k =>
    match modelInit with
    | .error m => .error (.modelInitError m)
    | .ok _ => .ok k

/-! ## Presence predicates for the required-field claims -/

/-- Does object `v` carry key `k`? -/
def objHasKey (v : Json) (k : List Char) : Bool := (jget v k).isSome

/-- All required `MealItems` keys present. -/
def mealItemsPresent (v : Json) : Bool := objHasKey v kItems && objHasKey v kCalories

/-- Every required field of the diet-plan response schema is present, at
every nesting level. -/
def dietRequiredPresent (v : Json) : Bool :=
  match jget v kDailyPlan with
  | some dp =>
    objHasKey dp kTotalCalories && objHasKey dp kSnacks &&
    (match jget dp kMeals with
     | some ms =>
       (match jget ms kBreakfast with | some b => mealItemsPresent b | none => false) &&
       (match jget ms kLunch with | some lu => mealItemsPresent lu | none => false) &&
       (match jget ms kDinner with | some d => mealItemsPresent d | none => false)
     | none => false)
  | none => false

/-- All required `NutritionBreakdown` keys present. -/
def nbPresent (j : Json) : Bool :=
  objHasKey j kItem && objHasKey j kCalories && objHasKey j kProtein &&
    objHasKey j kCarbs && objHasKey j kFat

/-- Every required field of the nutrition response schema is present, at
every nesting level (including inside every `breakdown` element). -/
def nutritionRequiredPresent (v : Json) : Bool :=
  match jget v kMealNutrition with
  | some mn =>
    objHasKey mn kTotalCalories &&
    (match jget mn kMacros with
     | some mc => objHasKey mc kProtein && objHasKey mc kCarbs && objHasKey mc kFat
     | none => false) &&
    (match jget mn kBreakdown with
     | some (.jarr xs) => xs.all nbPresent
     | _ => false)
  | none => false

/-- Every required (non-defaulted) field of `DietPlanRequest` is present. -/
def reqRequiredPresent (v : Json) : Bool :=
  objHasKey v kName && objHasKey v kAge && objHasKey v kGoal && objHasKey v kHeight &&
    objHasKey v kCurrentWeight && objHasKey v kTargetWeight && objHasKey v kRegion &&
    objHasKey v kCuisinePreference

/-! ## Concrete values used by witnesses and counterexamples -/

/-- A response wrapped in a JSON-tagged markdown fence. -/
def wrapJsonFence (s : List Char) : List Char := fenceJson ++ '\n' :: (s ++ '\n' :: fence3)

/-- A response wrapped in a generic markdown fence. -/
def wrapGenFence (s : List Char) : List Char := fence3 ++ '\n' :: (s ++ '\n' :: fence3)

/-- Serialization of the JSON object `{"a": "``` "}`-like value whose string
content is itself a fence marker. -/
def cxFenceStr : List Char := ("\x7b\"a\": \"\x60\x60\x60\"\x7d").data

def cxFenceVal : Json := .jobj [("a".data, .jstr fence3)]

def okJsonStr : List Char := ("\x7b\"a\": 1\x7d").data

def okJsonVal : Json := .jobj [("a".data, .jint 1)]

/-- Truncated JSON: `{"a": 1` with no closing brace. -/
def c2BadStr : List Char := ("\x7b\"a\": 1").data

/-- A JSON-tagged fence opener with no closing fence marker. -/
def c9Str1 : List Char := ("\x60\x60\x60json\n\x7b\"a\": 1\x7d").data

/-- A generic fence opener with no closing fence marker. -/
def c9Str2 : List Char := ("\x60\x60\x60\nhello").data

/-- A schema-conforming diet-plan JSON document. -/
def goodDietStr : List Char := ("\x7b\"daily_plan\": \x7b\"total_calories\": 1, \"meals\": \x7b\"breakfast\": \x7b\"items\": [\"a\"], \"calories\": 1\x7d, \"lunch\": \x7b\"items\": [\"b\"], \"calories\": 1\x7d, \"dinner\": \x7b\"items\": [\"c\"], \"calories\": 1\x7d\x7d, \"snacks\": [\"d\"]\x7d\x7d").data

def goodDietVal : Json :=
  .jobj [(kDailyPlan, .jobj [(kTotalCalories, .jint 1),
    (kMeals, .jobj [
      (kBreakfast, .jobj [(kItems, .jarr [.jstr ("a").data]), (kCalories, .jint 1)]),
      (kLunch, .jobj [(kItems, .jarr [.jstr ("b").data]), (kCalories, .jint 1)]),
      (kDinner, .jobj [(kItems, .jarr [.jstr ("c").data]), (kCalories, .jint 1)])]),
    (kSnacks, .jarr [.jstr ("d").data])])]

def goodDietResp : DietPlanResponse :=
  ⟨⟨1, ⟨⟨[("a").data], 1⟩, ⟨[("b").data], 1⟩, ⟨[("c").data], 1⟩⟩, [("d").data]⟩⟩

/-- A schema-conforming diet-plan JSON document one of whose snacks contains
a fence marker. -/
def cxSnackStr : List Char := ("\x7b\"daily_plan\": \x7b\"total_calories\": 1, \"meals\": \x7b\"breakfast\": \x7b\"items\": [\"a\"], \"calories\": 1\x7d, \"lunch\": \x7b\"items\": [\"b\"], \"calories\": 1\x7d, \"dinner\": \x7b\"items\": [\"c\"], \"calories\": 1\x7d\x7d, \"snacks\": [\"\x60\x60\x60\"]\x7d\x7d").data

def cxSnackVal : Json :=
  .jobj [(kDailyPlan, .jobj [(kTotalCalories, .jint 1),
    (kMeals, .jobj [
      (kBreakfast, .jobj [(kItems, .jarr [.jstr ("a").data]), (kCalories, .jint 1)]),
      (kLunch, .jobj [(kItems, .jarr [.jstr ("b").data]), (kCalories, .jint 1)]),
      (kDinner, .jobj [(kItems, .jarr [.jstr ("c").data]), (kCalories, .jint 1)])]),
    (kSnacks, .jarr [.jstr fence3])])]

/-- A diet-plan payload whose `meals.lunch.calories` is the numeric string
`"450"`. -/
def c5StrVal : Json :=
  .jobj [(kDailyPlan, .jobj [(kTotalCalories, .jint 2000),
    (kMeals, .jobj [
      (kBreakfast, .jobj [(kItems, .jarr [.jstr ("a").data]), (kCalories, .jint 400)]),
      (kLunch, .jobj [(kItems, .jarr [.jstr ("b").data]), (kCalories, .jstr ("450").data)]),
      (kDinner, .jobj [(kItems, .jarr [.jstr ("c").data]), (kCalories, .jint 600)])]),
    (kSnacks, .jarr [.jstr ("d").data])])]

/-- A diet-plan payload whose `daily_plan` lacks the `snacks` key. -/
def c5NoSnacksVal : Json :=
  .jobj [(kDailyPlan, .jobj [(kTotalCalories, .jint 2000),
    (kMeals, .jobj [
      (kBreakfast, .jobj [(kItems, .jarr [.jstr ("a").data]), (kCalories, .jint 400)]),
      (kLunch, .jobj [(kItems, .jarr [.jstr ("b").data]), (kCalories, .jint 500)]),
      (kDinner, .jobj [(kItems, .jarr [.jstr ("c").data]), (kCalories, .jint 600)])])])]

/-- A diet-plan payload whose `meals.lunch.calories` is the non-numeric
string `"abc"`. -/
def c5BadStrVal : Json :=
  .jobj [(kDailyPlan, .jobj [(kTotalCalories, .jint 2000),
    (kMeals, .jobj [
      (kBreakfast, .jobj [(kItems, .jarr [.jstr ("a").data]), (kCalories, .jint 400)]),
      (kLunch, .jobj [(kItems, .jarr [.jstr ("b").data]), (kCalories, .jstr ("abc").data)]),
      (kDinner, .jobj [(kItems, .jarr [.jstr ("c").data]), (kCalories, .jint 600)])]),
    (kSnacks, .jarr [.jstr ("d").data])])]

/-- A schema-conforming nutrition-breakdown payload. -/
def goodNutriVal : Json :=
  .jobj [(kMealNutrition, .jobj [(kTotalCalories, .jint 500),
    (kMacros, .jobj [(kProtein, .jint 20), (kCarbs, .jint 60), (kFat, .jint 10)]),
    (kBreakdown, .jarr [.jobj [(kItem, .jstr ("egg").data), (kCalories, .jint 80),
      (kProtein, .jint 7), (kCarbs, .jint 1), (kFat, .jint 5)]])])]

def goodNutriResp : NutritionBreakdownResponse :=
  ⟨⟨500, ⟨((20 : Int) : ℚ), ((60 : Int) : ℚ), ((10 : Int) : ℚ)⟩,
    [⟨("egg").data, 80, ((7 : Int) : ℚ), ((1 : Int) : ℚ), ((5 : Int) : ℚ)⟩]⟩⟩

/-- A serialization of `goodNutriVal`. -/
def goodNutriStr : List Char := ("\x7b\"meal_nutrition\": \x7b\"total_calories\": 500, \"macros\": \x7b\"protein\": 20, \"carbs\": 60, \"fat\": 10\x7d, \"breakdown\": [\x7b\"item\": \"egg\", \"calories\": 80, \"protein\": 7, \"carbs\": 1, \"fat\": 5\x7d]\x7d\x7d").data

/-- Valid request bindings omitting `health_conditions` and `allergies`. -/
def reqBindings : List (List Char × Json) :=
  [(kName, .jstr ("Sam").data), (kAge, .jint 30), (kGoal, .jstr ("Weight Loss").data),
   (kHeight, .jint 175), (kCurrentWeight, .jint 80), (kTargetWeight, .jint 70),
   (kRegion, .jstr ("India").data), (kCuisinePreference, .jstr ("Vegetarian").data)]

def reqVal : Json := .jobj reqBindings

def reqResult : DietPlanRequest :=
  ⟨("Sam").data, 30, ("Weight Loss").data, 175, ((80 : Int) : ℚ), ((70 : Int) : ℚ), [],
   ("India").data, ("Vegetarian").data, []⟩

/-- A stubbed model call returning a well-formed diet-plan document. -/
def cmGoodDiet : List Char → Except (List Char) (List Char) := fun _ => .ok goodDietStr

/-- A stubbed model call returning a well-formed nutrition document. -/
def cmGoodNutri : List Char → Except (List Char) (List Char) := fun _ => .ok goodNutriStr

/-- A stubbed model call that raises. -/
def cmBoom : List Char → Except (List Char) (List Char) := fun _ => .error ("boom").data

/-- A stubbed model call returning unparseable text. -/
def cmGarbage : List Char → Except (List Char) (List Char) := fun _ => .ok ("not json").data

def nReq0 : NutritionRequest := ⟨[⟨("egg").data, ("2 pieces").data⟩]⟩

/-! ## Helper lemmas -/

theorem fence3_chars : fence3 = '\x60' :: '\x60' :: '\x60' :: [] := rfl

theorem fenceJson_chars : fenceJson = '\x60' :: '\x60' :: '\x60' :: 'j' :: 's' :: 'o' :: 'n' :: [] := rfl

theorem beginsWith_append_left (p q : List Char) :
    ∀ s, beginsWith (p ++ q) s = true → beginsWith p s = true := by
  induction p with
  | nil => intro s _; rfl
  | cons ph pt ih =>
    intro s h
    cases s with
    | nil => simp [beginsWith] at h
    | cons c cs =>
      simp only [List.cons_append, beginsWith, Bool.and_eq_true] at h ⊢
      exact ⟨h.1, ih cs h.2⟩

theorem beginsWith_append_self (p : List Char) : ∀ t, beginsWith p (p ++ t) = true := by
  induction p with
  | nil => intro t; rfl
  | cons ph pt ih =>
    intro t
    simp only [List.cons_append, beginsWith, Bool.and_eq_true]
    exact ⟨by simp, ih t⟩

theorem firstMatch_cons_none {pat : List Char} {c : Char} {cs : List Char}
    (h : firstMatch pat (c :: cs) = none) :
    beginsWith pat (c :: cs) = false ∧ firstMatch pat cs = none := by
  by_cases hb : beginsWith pat (c :: cs) = true
  · simp [firstMatch, hb] at h
  · simp only [Bool.not_eq_true] at hb
    simp only [firstMatch, hb, Bool.false_eq_true, if_false, Option.map_eq_none'] at h
    exact ⟨hb, h⟩

theorem firstMatch_none_mono {p q : List Char} :
    ∀ {l}, firstMatch p l = none → firstMatch (p ++ q) l = none := by
  intro l
  induction l with
  | nil =>
    intro h
    cases p with
    | nil => simp [firstMatch, beginsWith] at h
    | cons ph pt => simp [firstMatch, beginsWith]
  | cons c cs ih =>
    intro h
    obtain ⟨hb, h2⟩ := firstMatch_cons_none h
    have hbq : beginsWith (p ++ q) (c :: cs) = false := by
      cases hq : beginsWith (p ++ q) (c :: cs) with
      | false => rfl
      | true => rw [beginsWith_append_left p q _ hq] at hb; cases hb
    simp only [firstMatch, hbq, Bool.false_eq_true, if_false, Option.map_eq_none']
    exact ih h2

theorem containsSub_fenceJson_of_fence3 {l : List Char} (h : containsSub l fence3 = false) :
    containsSub l fenceJson = false := by
  unfold containsSub at h ⊢
  cases hfm : firstMatch fence3 l with
  | some k => rw [hfm] at h; cases h
  | none =>
    have : fenceJson = fence3 ++ ('j' :: 's' :: 'o' :: 'n' :: []) := rfl
    rw [this, firstMatch_none_mono hfm]
    rfl

theorem firstMatch_self_append (p t : List Char) (hp : p ≠ []) : firstMatch p (p ++ t) = some 0 := by
  cases p with
  | nil => exact absurd rfl hp
  | cons ph pt =>
    have hb := beginsWith_append_self (ph :: pt) t
    simp only [List.cons_append] at hb ⊢
    simp [firstMatch, hb]

theorem firstMatch_fence3_tail :
    ∀ {s : List Char}, firstMatch fence3 s = none →
      firstMatch fence3 (s ++ '\n' :: fence3) = some (s.length + 1) := by
  intro s
  induction s with
  | nil => intro _; decide
  | cons c cs ih =>
    intro h
    obtain ⟨hb, h2⟩ := firstMatch_cons_none h
    have hbt : beginsWith fence3 (c :: (cs ++ '\n' :: fence3)) = false := by
      cases cs with
      | nil =>
        simp only [fence3_chars, beginsWith, List.nil_append] at hb ⊢
        simp_all
      | cons d ds =>
        cases ds with
        | nil =>
          simp only [fence3_chars, beginsWith, List.cons_append, List.nil_append] at hb ⊢
          simp_all
        | cons e es =>
          simp only [fence3_chars, beginsWith, List.cons_append, Bool.and_true] at hb ⊢
          exact hb
    simp only [List.cons_append, firstMatch, List.append_eq, hbt, Bool.false_eq_true, if_false,
      ih h2, Option.map_some', List.length_cons]

theorem firstMatch_fenceJson_tail :
    ∀ {s : List Char}, firstMatch fence3 s = none →
      firstMatch fenceJson (s ++ '\n' :: fence3) = none := by
  intro s
  induction s with
  | nil => intro _; decide
  | cons c cs ih =>
    intro h
    obtain ⟨hb, h2⟩ := firstMatch_cons_none h
    have hbt : beginsWith fenceJson (c :: (cs ++ '\n' :: fence3)) = false := by
      cases cs with
      | nil =>
        simp only [fenceJson_chars, beginsWith, List.nil_append, fence3_chars] at hb ⊢
        simp_all
      | cons d ds =>
        cases ds with
        | nil =>
          simp only [fenceJson_chars, beginsWith, List.cons_append, List.nil_append,
            fence3_chars] at hb ⊢
          simp_all
        | cons e es =>
          simp only [fence3_chars, beginsWith, Bool.and_true] at hb
          simp only [fenceJson_chars, beginsWith, List.cons_append]
          rcases Bool.and_eq_false_iff.mp hb with h1 | hrest
          · simp [h1]
          · rcases Bool.and_eq_false_iff.mp hrest with h1 | h1 <;> simp [h1]
    simp only [List.cons_append, firstMatch, List.append_eq, hbt, Bool.false_eq_true, if_false,
      ih h2, Option.map_none']

theorem dropWhile_eq_self_of_strip {s : List Char} (h : pyStrip s = s) :
    s.dropWhile isPyWs = s ∧ s.reverse.dropWhile isPyWs = s.reverse := by
  have hlen1 : (s.dropWhile isPyWs).length ≤ s.length := (List.dropWhile_sublist _).length_le
  have hlen2 : (pyStrip s).length ≤ (s.dropWhile isPyWs).length := by
    unfold pyStrip
    calc (((s.dropWhile isPyWs).reverse.dropWhile isPyWs).reverse).length
        = ((s.dropWhile isPyWs).reverse.dropWhile isPyWs).length := List.length_reverse _
      _ ≤ (s.dropWhile isPyWs).reverse.length := (List.dropWhile_sublist _).length_le
      _ = (s.dropWhile isPyWs).length := List.length_reverse _
  have hlenEq : (pyStrip s).length = s.length := by rw [h]
  have hdlen : (s.dropWhile isPyWs).length = s.length := le_antisymm hlen1 (by omega)
  have hd : s.dropWhile isPyWs = s :=
    (List.dropWhile_sublist isPyWs).eq_of_length hdlen
  refine ⟨hd, ?_⟩
  have h2 : ((s.reverse.dropWhile isPyWs).reverse) = s := by
    unfold pyStrip at h
    rw [hd] at h
    exact h
  have := congrArg List.reverse h2
  simpa using this

theorem head_not_ws_of_dropWhile_self {hd : Char} {tl : List Char}
    (h : (hd :: tl).dropWhile isPyWs = hd :: tl) : isPyWs hd = false := by
  cases hw : isPyWs hd with
  | false => rfl
  | true =>
    rw [List.dropWhile_cons, if_pos hw] at h
    have h1 := congrArg List.length h
    have h2 : (tl.dropWhile isPyWs).length ≤ tl.length := (List.dropWhile_sublist _).length_le
    simp only [List.length_cons] at h1
    omega

theorem pyStrip_wrapped {s : List Char} (hne : s ≠ []) (h : pyStrip s = s) :
    pyStrip ('\n' :: (s ++ ['\n'])) = s := by
  obtain ⟨h1, h2⟩ := dropWhile_eq_self_of_strip h
  have hws : isPyWs '\n' = true := by decide
  obtain ⟨hd, tl, rfl⟩ := List.exists_cons_of_ne_nil hne
  have hhd : isPyWs hd = false := head_not_ws_of_dropWhile_self h1
  unfold pyStrip
  rw [List.dropWhile_cons, if_pos hws, List.cons_append, List.dropWhile_cons,
    if_neg (by simp [hhd])]
  have hrev : (hd :: (tl ++ ['\n'])).reverse = '\n' :: (hd :: tl).reverse := by simp
  rw [hrev, List.dropWhile_cons, if_pos hws, h2, List.reverse_reverse]

theorem extract_nofence {s : List Char} (hnf : firstMatch fence3 s = none) :
    extractPayload s = s := by
  have h1 : containsSub s fence3 = false := by unfold containsSub; rw [hnf]; rfl
  have h2 : containsSub s fenceJson = false := containsSub_fenceJson_of_fence3 h1
  unfold extractPayload
  rw [h1, h2]
  simp

theorem extract_wrapJson {s : List Char} (hnf : firstMatch fence3 s = none)
    (hne : s ≠ []) (hstrip : pyStrip s = s) :
    extractPayload (wrapJsonFence s) = s := by
  have hlen : (wrapJsonFence s).length = s.length + 12 := by
    simp [wrapJsonFence, fenceJson_chars, fence3_chars]
  have hc1 : containsSub (wrapJsonFence s) fenceJson = true := by
    unfold containsSub wrapJsonFence
    rw [firstMatch_self_append _ _ (by simp [fenceJson_chars])]
    rfl
  have hn0 : normIdx (wrapJsonFence s).length 0 = 0 := by
    unfold normIdx
    split <;> omega
  have hn7 : normIdx (wrapJsonFence s).length (0 + 7) = 7 := by
    rw [hlen]
    unfold normIdx
    split <;> omega
  have hn9 : normIdx (wrapJsonFence s).length ((s.length + 9 : Nat) : Int) = s.length + 9 := by
    rw [hlen]
    unfold normIdx
    split <;> omega
  have hfind1 : pyFindI (wrapJsonFence s) fenceJson 0 = 0 := by
    unfold pyFindI
    rw [hn0, List.drop_zero]
    unfold wrapJsonFence
    rw [firstMatch_self_append _ _ (by simp [fenceJson_chars])]
    simp
  have hdrop7 : (wrapJsonFence s).drop 7 = '\n' :: (s ++ '\n' :: fence3) := by
    unfold wrapJsonFence
    have h7 : (7 : Nat) = fenceJson.length := rfl
    rw [h7, List.drop_left]
  have hfm2 : firstMatch fence3 ('\n' :: (s ++ '\n' :: fence3)) = some (s.length + 2) := by
    have hb : beginsWith fence3 ('\n' :: (s ++ '\n' :: fence3)) = false := by
      simp [fence3_chars, beginsWith]
    simp only [firstMatch, hb, Bool.false_eq_true, if_false, firstMatch_fence3_tail hnf,
      Option.map_some']
  have hfind2 : pyFindI (wrapJsonFence s) fence3 (0 + 7) = ((s.length + 9 : Nat) : Int) := by
    unfold pyFindI
    rw [hn7, hdrop7, hfm2]
    change ((7 + (s.length + 2) : Nat) : Int) = ((s.length + 9 : Nat) : Int)
    omega
  have hslice : pySlice (wrapJsonFence s) (0 + 7) ((s.length + 9 : Nat) : Int)
      = '\n' :: (s ++ ['\n']) := by
    unfold pySlice
    rw [hn9, hn7, List.drop_take, hdrop7]
    have h92 : s.length + 9 - 7 = s.length + 1 + 1 := by omega
    rw [h92, List.take_succ_cons, List.take_append_eq_append_take]
    have hts : s.take (s.length + 1) = s := List.take_of_length_le (by omega)
    have htn : s.length + 1 - s.length = 1 := by omega
    rw [hts, htn]
    rfl
  unfold extractPayload
  rw [hc1]
  simp only [if_true]
  rw [hfind1, hfind2, hslice]
  exact pyStrip_wrapped hne hstrip

theorem extract_wrapGen {s : List Char} (hnf : firstMatch fence3 s = none)
    (hne : s ≠ []) (hstrip : pyStrip s = s) :
    extractPayload (wrapGenFence s) = s := by
  have hlen : (wrapGenFence s).length = s.length + 8 := by
    simp [wrapGenFence, fence3_chars]
  have hb0 : beginsWith fenceJson ('\x60' :: '\x60' :: '\x60' :: '\n' :: (s ++ '\n' :: fence3)) = false := by
    simp [fenceJson_chars, beginsWith]
  have hb1 : beginsWith fenceJson ('\x60' :: '\x60' :: '\n' :: (s ++ '\n' :: fence3)) = false := by
    simp [fenceJson_chars, beginsWith]
  have hb2 : beginsWith fenceJson ('\x60' :: '\n' :: (s ++ '\n' :: fence3)) = false := by
    simp [fenceJson_chars, beginsWith]
  have hb3 : beginsWith fenceJson ('\n' :: (s ++ '\n' :: fence3)) = false := by
    simp [fenceJson_chars, beginsWith]
  have hfmj : firstMatch fenceJson (wrapGenFence s) = none := by
    show firstMatch fenceJson ('\x60' :: '\x60' :: '\x60' :: '\n' :: (s ++ '\n' :: fence3)) = none
    simp only [firstMatch, hb0, hb1, hb2, hb3, Bool.false_eq_true, if_false,
      Option.map_eq_none']
    exact firstMatch_fenceJson_tail hnf
  have hc0 : containsSub (wrapGenFence s) fenceJson = false := by
    unfold containsSub
    rw [hfmj]
    rfl
  have hc1 : containsSub (wrapGenFence s) fence3 = true := by
    unfold containsSub wrapGenFence
    rw [firstMatch_self_append _ _ (by simp [fence3_chars])]
    rfl
  have hn0 : normIdx (wrapGenFence s).length 0 = 0 := by
    unfold normIdx
    split <;> omega
  have hn3 : normIdx (wrapGenFence s).length (0 + 3) = 3 := by
    rw [hlen]
    unfold normIdx
    split <;> omega
  have hn5 : normIdx (wrapGenFence s).length ((s.length + 5 : Nat) : Int) = s.length + 5 := by
    rw [hlen]
    unfold normIdx
    split <;> omega
  have hfind1 : pyFindI (wrapGenFence s) fence3 0 = 0 := by
    unfold pyFindI
    rw [hn0, List.drop_zero]
    unfold wrapGenFence
    rw [firstMatch_self_append _ _ (by simp [fence3_chars])]
    simp
  have hdrop3 : (wrapGenFence s).drop 3 = '\n' :: (s ++ '\n' :: fence3) := by
    unfold wrapGenFence
    have h3 : (3 : Nat) = fence3.length := rfl
    rw [h3, List.drop_left]
  have hfm2 : firstMatch fence3 ('\n' :: (s ++ '\n' :: fence3)) = some (s.length + 2) := by
    have hb : beginsWith fence3 ('\n' :: (s ++ '\n' :: fence3)) = false := by
      simp [fence3_chars, beginsWith]
    simp only [firstMatch, hb, Bool.false_eq_true, if_false, firstMatch_fence3_tail hnf,
      Option.map_some']
  have hfind2 : pyFindI (wrapGenFence s) fence3 (0 + 3) = ((s.length + 5 : Nat) : Int) := by
    unfold pyFindI
    rw [hn3, hdrop3, hfm2]
    change ((3 + (s.length + 2) : Nat) : Int) = ((s.length + 5 : Nat) : Int)
    omega
  have hslice : pySlice (wrapGenFence s) (0 + 3) ((s.length + 5 : Nat) : Int)
      = '\n' :: (s ++ ['\n']) := by
    unfold pySlice
    rw [hn5, hn3, List.drop_take, hdrop3]
    have h52 : s.length + 5 - 3 = s.length + 1 + 1 := by omega
    rw [h52, List.take_succ_cons, List.take_append_eq_append_take]
    have hts : s.take (s.length + 1) = s := List.take_of_length_le (by omega)
    have htn : s.length + 1 - s.length = 1 := by omega
    rw [hts, htn]
    rfl
  unfold extractPayload
  rw [hc0, hc1]
  simp only [Bool.false_eq_true, if_false, if_true]
  rw [hfind1, hfind2, hslice]
  exact pyStrip_wrapped hne hstrip

theorem pySlice_neg_one (t : List Char) (a : Int) (ha : 0 ≤ a) :
    pySlice t a (-1) = (t.drop a.toNat).dropLast := by
  unfold pySlice
  have hb : normIdx t.length (-1) = t.length - 1 := by
    unfold normIdx
    split <;> omega
  have ha2 : normIdx t.length a = min a.toNat t.length := by
    unfold normIdx
    split <;> omega
  rw [hb, ha2, List.drop_take]
  have hdmin : t.drop (min a.toNat t.length) = t.drop a.toNat := by
    rcases le_or_lt a.toNat t.length with h | h
    · rw [min_eq_left h]
    · rw [min_eq_right h.le, List.drop_eq_nil_of_le (le_refl _),
        List.drop_eq_nil_of_le h.le]
  rw [hdmin, List.dropLast_eq_take (t.drop a.toNat), List.length_drop]
  congr 1
  omega

theorem pyFindI_zero_of_contains {t pat : List Char} (h : containsSub t pat = true) :
    ∃ k, firstMatch pat t = some k ∧ pyFindI t pat 0 = (k : Int) := by
  unfold containsSub at h
  cases hfm : firstMatch pat t with
  | none => rw [hfm] at h; cases h
  | some k =>
    refine ⟨k, rfl, ?_⟩
    unfold pyFindI
    have hn0 : normIdx t.length 0 = 0 := by
      unfold normIdx
      split <;> omega
    rw [hn0, List.drop_zero, hfm]
    simp

/-! ## Claim theorems -/

/-- C1 counterexample: the JSON object `{"a": "``` "}`-style value, whose
serialization contains a fence marker, is valid JSON, yet the unfenced
extractor fails on it instead of parsing the entire text — so extraction
does not yield the same parsed value across the three wrappings. -/
theorem c1_fence_marker_cx :
    jsonParse cxFenceStr = Except.ok cxFenceVal ∧
    (parse_gemini_response cxFenceStr).isOk = false :=
  ⟨rfl, rfl⟩

/-- C1 (amended): the extractor follows the fence-stripping algorithm of the
source, and for any JSON value whose serialization contains no fence marker
(and carries no surrounding whitespace), extraction yields the same parsed
value whether the serialization is wrapped in a JSON-tagged fence, a generic
fence, or not fenced at all. -/
theorem c1_extractor_wrap_equiv (s : List Char) (v : Json)
    (hnf : containsSub s fence3 = false)
    (hstrip : pyStrip s = s)
    (hparse : jsonParse s = Except.ok v) :
    parse_gemini_response (wrapJsonFence s) = Except.ok v ∧
    parse_gemini_response (wrapGenFence s) = Except.ok v ∧
    parse_gemini_response s = Except.ok v := by
  have hne : s ≠ [] := by
    intro h
    rw [h] at hparse
    rw [show jsonParse ([] : List Char) = Except.error msgExpectingValue from rfl] at hparse
    cases hparse
  have hfm : firstMatch fence3 s = none := by
    unfold containsSub at hnf
    cases hfm2 : firstMatch fence3 s with
    | none => rfl
    | some k => rw [hfm2] at hnf; cases hnf
  unfold parse_gemini_response
  rw [extract_wrapJson hfm hne hstrip, extract_wrapGen hfm hne hstrip,
    extract_nofence hfm, hparse]
  exact ⟨rfl, rfl, rfl⟩

theorem c1_extractor_wrap_equiv_witness :
    containsSub okJsonStr fence3 = false ∧ pyStrip okJsonStr = okJsonStr ∧
    jsonParse okJsonStr = Except.ok okJsonVal ∧
    (parse_gemini_response (wrapJsonFence okJsonStr) = Except.ok okJsonVal ∧
     parse_gemini_response (wrapGenFence okJsonStr) = Except.ok okJsonVal ∧
     parse_gemini_response okJsonStr = Except.ok okJsonVal) :=
  ⟨rfl, rfl, rfl, c1_extractor_wrap_equiv okJsonStr okJsonVal rfl rfl rfl⟩

/-- C2: whenever the extracted payload is not valid JSON, the extractor
fails with exactly a `ParseErr` carrying the decode error message and the
truncated (500-character) prefix of the offending text — never any other
outcome. -/
theorem c2_parse_error_on_invalid_json (t e : List Char)
    (h : jsonParse (extractPayload t) = Except.error e) :
    parse_gemini_response t =
      Except.error ⟨parseFailNote ++ e, (extractPayload t).take 500⟩ := by
  unfold parse_gemini_response
  rw [h]

theorem c2_parse_error_on_invalid_json_witness :
    jsonParse (extractPayload c2BadStr) = Except.error msgExpectingComma ∧
    parse_gemini_response c2BadStr =
      Except.error ⟨parseFailNote ++ msgExpectingComma, (extractPayload c2BadStr).take 500⟩ :=
  ⟨rfl, c2_parse_error_on_invalid_json c2BadStr msgExpectingComma rfl⟩

/-- C9: when the text contains a fence opener but no subsequent closing
marker, the second `find` returns `-1`, the extractor slices `text[start:-1]`,
and the final character of the remaining text is silently dropped before
trimming; extraction operates on this truncated substring. -/
theorem c9_unclosed_fence_drops_last (t : List Char) :
    (containsSub t fenceJson = true →
      pyFindI t fence3 (pyFindI t fenceJson 0 + 7) = -1 →
      extractPayload t =
        pyStrip ((t.drop ((pyFindI t fenceJson 0).toNat + 7)).dropLast)) ∧
    (containsSub t fenceJson = false → containsSub t fence3 = true →
      pyFindI t fence3 (pyFindI t fence3 0 + 3) = -1 →
      extractPayload t =
        pyStrip ((t.drop ((pyFindI t fence3 0).toNat + 3)).dropLast)) := by
  constructor
  · intro hc hend
    obtain ⟨k, hk, hfind⟩ := pyFindI_zero_of_contains hc
    unfold extractPayload
    rw [hc]
    simp only [if_true]
    rw [hend, hfind]
    rw [pySlice_neg_one t _ (by omega)]
    have hX : ((k : Int) + 7).toNat = k + 7 := by omega
    have hY : ((k : Int)).toNat = k := Int.toNat_natCast k
    rw [hX, hY]
  · intro hc0 hc hend
    obtain ⟨k, hk, hfind⟩ := pyFindI_zero_of_contains hc
    unfold extractPayload
    rw [hc0, hc]
    simp only [Bool.false_eq_true, if_false, if_true]
    rw [hend, hfind]
    rw [pySlice_neg_one t _ (by omega)]
    have hX : ((k : Int) + 3).toNat = k + 3 := by omega
    have hY : ((k : Int)).toNat = k := Int.toNat_natCast k
    rw [hX, hY]

theorem c9_unclosed_fence_drops_last_witness :
    (containsSub c9Str1 fenceJson = true ∧
     pyFindI c9Str1 fence3 (pyFindI c9Str1 fenceJson 0 + 7) = -1 ∧
     extractPayload c9Str1 =
       pyStrip ((c9Str1.drop ((pyFindI c9Str1 fenceJson 0).toNat + 7)).dropLast)) ∧
    (containsSub c9Str2 fenceJson = false ∧ containsSub c9Str2 fence3 = true ∧
     pyFindI c9Str2 fence3 (pyFindI c9Str2 fence3 0 + 3) = -1 ∧
     extractPayload c9Str2 =
       pyStrip ((c9Str2.drop ((pyFindI c9Str2 fence3 0).toNat + 3)).dropLast)) :=
  ⟨⟨rfl, rfl, (c9_unclosed_fence_drops_last c9Str1).1 rfl rfl⟩,
   ⟨rfl, rfl, rfl, (c9_unclosed_fence_drops_last c9Str2).2 rfl rfl rfl⟩⟩

theorem handler_total_diet (cm : List Char → Except (List Char) (List Char))
    (req : DietPlanRequest) :
    (∃ r, generate_diet_plan cm req = .ok r) ∨
      (∃ d, generate_diet_plan cm req = .httpError 500 d) := by
  unfold generate_diet_plan
  repeat' split
  all_goals first
    | exact Or.inl ⟨_, rfl⟩
    | exact Or.inr ⟨_, rfl⟩

theorem handler_total_nutrition (cm : List Char → Except (List Char) (List Char))
    (req : NutritionRequest) :
    (∃ r, nutrition_breakdown cm req = .ok r) ∨
      (∃ d, nutrition_breakdown cm req = .httpError 500 d) := by
  unfold nutrition_breakdown
  repeat' split
  all_goals first
    | exact Or.inl ⟨_, rfl⟩
    | exact Or.inr ⟨_, rfl⟩

/-- C8: an absent credential makes initialization fail with the ConfigError
(`ValueError: GOOGLE_API_KEY environment variable is required`), so the
service never serves a request; any non-empty key passes the check; and the
per-request error classes (upstream, parse, validation) are never fatal —
both handlers always return a response (200 or 500). -/
theorem c8_missing_key_fatal :
    (∀ minit, initService none minit =
      Except.error (StartupErr.configError keyRequiredNote)) ∧
    (∀ minit, (initService none minit).isOk = false) ∧
    (∀ k, k ≠ [] → startupCheck (some k) = Except.ok k) ∧
    (∀ cm req, (∃ r, generate_diet_plan cm req = .ok r) ∨
      (∃ d, generate_diet_plan cm req = .httpError 500 d)) ∧
    (∀ cm req, (∃ r, nutrition_breakdown cm req = .ok r) ∨
      (∃ d, nutrition_breakdown cm req = .httpError 500 d)) := by
  refine ⟨fun minit => rfl, fun minit => rfl, ?_, handler_total_diet, handler_total_nutrition⟩
  intro k hk
  unfold startupCheck
  dsimp only
  rw [if_neg hk]

theorem c8_missing_key_fatal_witness :
    (("key").data ≠ [] ∧ startupCheck (some (("key").data)) = Except.ok (("key").data)) ∧
    initService none (Except.ok ()) =
      Except.error (StartupErr.configError keyRequiredNote) :=
  ⟨⟨by simp, c8_missing_key_fatal.2.2.1 (("key").data) (by simp)⟩,
   c8_missing_key_fatal.1 (Except.ok ())⟩

theorem dietValidate_obj {v : Json} {r : DietPlanResponse}
    (h : DietPlanResponse.validate v = some r) : ∃ l, v = .jobj l := by
  cases v <;> first
    | exact ⟨_, rfl⟩
    | simp [DietPlanResponse.validate, asObj] at h

theorem nutritionValidate_obj {v : Json} {r : NutritionBreakdownResponse}
    (h : NutritionBreakdownResponse.validate v = some r) : ∃ l, v = .jobj l := by
  cases v <;> first
    | exact ⟨_, rfl⟩
    | simp [NutritionBreakdownResponse.validate, asObj] at h

/-- C3: for both POST handlers, any failure of the model call, the response
extraction, or the schema validation yields a 500 response with a detail
message (the handler never crashes), and when all three stages succeed the
handler returns 200 with the validated response object. -/
theorem c3_handler_error_boundary :
    (∀ cm req e, cm (construct_diet_plan_prompt req) = Except.error e →
      generate_diet_plan cm req = .httpError 500 (genDietFailNote ++ e)) ∧
    (∀ cm req t pe, cm (construct_diet_plan_prompt req) = Except.ok t →
      parse_gemini_response t = Except.error pe →
      generate_diet_plan cm req = .httpError 500 pe.msg) ∧
    (∀ cm req t v, cm (construct_diet_plan_prompt req) = Except.ok t →
      parse_gemini_response t = Except.ok v →
      DietPlanResponse.validate v = none →
      ∃ d, generate_diet_plan cm req = .httpError 500 d) ∧
    (∀ cm req t v r, cm (construct_diet_plan_prompt req) = Except.ok t →
      parse_gemini_response t = Except.ok v →
      DietPlanResponse.validate v = some r →
      generate_diet_plan cm req = .ok r) ∧
    (∀ cm req e, cm (construct_nutrition_prompt req) = Except.error e →
      nutrition_breakdown cm req = .httpError 500 (nutritionFailNote ++ e)) ∧
    (∀ cm req t pe, cm (construct_nutrition_prompt req) = Except.ok t →
      parse_gemini_response t = Except.error pe →
      nutrition_breakdown cm req = .httpError 500 pe.msg) ∧
    (∀ cm req t v, cm (construct_nutrition_prompt req) = Except.ok t →
      parse_gemini_response t = Except.ok v →
      NutritionBreakdownResponse.validate v = none →
      ∃ d, nutrition_breakdown cm req = .httpError 500 d) ∧
    (∀ cm req t v r, cm (construct_nutrition_prompt req) = Except.ok t →
      parse_gemini_response t = Except.ok v →
      NutritionBreakdownResponse.validate v = some r →
      nutrition_breakdown cm req = .ok r) := by
  refine ⟨?_, ?_, ?_, ?_, ?_, ?_, ?_, ?_⟩
  · intro cm req e h
    unfold generate_diet_plan
    rw [h]
  · intro cm req t pe h1 h2
    unfold generate_diet_plan
    rw [h1]
    dsimp only
    rw [h2]
  · intro cm req t v h1 h2 h3
    unfold generate_diet_plan
    rw [h1]
    dsimp only
    rw [h2]
    dsimp only
    cases v <;> first
      | exact ⟨_, rfl⟩
      | (simp only [h3]; exact ⟨_, rfl⟩)
  · intro cm req t v r h1 h2 h3
    obtain ⟨l, rfl⟩ := dietValidate_obj h3
    unfold generate_diet_plan
    rw [h1]
    dsimp only
    rw [h2]
    dsimp only
    rw [h3]
  · intro cm req e h
    unfold nutrition_breakdown
    rw [h]
  · intro cm req t pe h1 h2
    unfold nutrition_breakdown
    rw [h1]
    dsimp only
    rw [h2]
  · intro cm req t v h1 h2 h3
    unfold nutrition_breakdown
    rw [h1]
    dsimp only
    rw [h2]
    dsimp only
    cases v <;> first
      | exact ⟨_, rfl⟩
      | (simp only [h3]; exact ⟨_, rfl⟩)
  · intro cm req t v r h1 h2 h3
    obtain ⟨l, rfl⟩ := nutritionValidate_obj h3
    unfold nutrition_breakdown
    rw [h1]
    dsimp only
    rw [h2]
    dsimp only
    rw [h3]

set_option maxRecDepth 10000 in
theorem c3_handler_error_boundary_witness :
    generate_diet_plan cmBoom reqResult =
      .httpError 500 (genDietFailNote ++ ("boom").data) ∧
    generate_diet_plan cmGoodDiet reqResult = .ok goodDietResp ∧
    nutrition_breakdown cmGoodNutri nReq0 = .ok goodNutriResp :=
  ⟨c3_handler_error_boundary.1 cmBoom reqResult (("boom").data) rfl,
   c3_handler_error_boundary.2.2.2.1 cmGoodDiet reqResult goodDietStr goodDietVal
     goodDietResp rfl rfl rfl,
   c3_handler_error_boundary.2.2.2.2.2.2.2 cmGoodNutri nReq0 goodNutriStr goodNutriVal
     goodNutriResp rfl rfl rfl⟩

theorem asObj_inv {v : Json} {l : List (List Char × Json)} (h : asObj v = some l) :
    v = .jobj l := by
  cases v <;> simp_all [asObj]

theorem jget_jobj (l : List (List Char × Json)) (k : List Char) :
    jget (.jobj l) k = jlookup l k := rfl

theorem objHasKey_jobj (l : List (List Char × Json)) (k : List Char) :
    objHasKey (.jobj l) k = (jlookup l k).isSome := rfl

theorem mealItems_validate_inv {v : Json} {m : MealItems}
    (h : MealItems.validate v = some m) :
    ∃ l ij cj, v = .jobj l ∧ jlookup l kItems = some ij ∧ asStrList ij = some m.items ∧
      jlookup l kCalories = some cj ∧ asInt cj = some m.calories := by
  simp only [MealItems.validate, Option.bind_eq_some, Option.pure_def,
    Option.some.injEq] at h
  obtain ⟨l, hl, its, hits, cal, hcal, hm⟩ := h
  obtain ⟨ij, hij, hsl⟩ := hits
  obtain ⟨cj, hcj, hci⟩ := hcal
  subst hm
  exact ⟨l, ij, cj, asObj_inv hl, hij, hsl, hcj, hci⟩

theorem meals_validate_inv {v : Json} {ms : Meals}
    (h : Meals.validate v = some ms) :
    ∃ l bj lj dj, v = .jobj l ∧
      jlookup l kBreakfast = some bj ∧ MealItems.validate bj = some ms.breakfast ∧
      jlookup l kLunch = some lj ∧ MealItems.validate lj = some ms.lunch ∧
      jlookup l kDinner = some dj ∧ MealItems.validate dj = some ms.dinner := by
  simp only [Meals.validate, Option.bind_eq_some, Option.pure_def,
    Option.some.injEq] at h
  obtain ⟨l, hl, b, hb, lu, hlu, d, hd, hm⟩ := h
  obtain ⟨bj, hbj, hbv⟩ := hb
  obtain ⟨lj, hlj, hlv⟩ := hlu
  obtain ⟨dj, hdj, hdv⟩ := hd
  subst hm
  exact ⟨l, bj, lj, dj, asObj_inv hl, hbj, hbv, hlj, hlv, hdj, hdv⟩

theorem dailyPlan_validate_inv {v : Json} {d : DailyPlan}
    (h : DailyPlan.validate v = some d) :
    ∃ l tj mj sj, v = .jobj l ∧
      jlookup l kTotalCalories = some tj ∧ asInt tj = some d.total_calories ∧
      jlookup l kMeals = some mj ∧ Meals.validate mj = some d.meals ∧
      jlookup l kSnacks = some sj ∧ asStrList sj = some d.snacks := by
  simp only [DailyPlan.validate, Option.bind_eq_some, Option.pure_def,
    Option.some.injEq] at h
  obtain ⟨l, hl, tc, htc, ms, hms, sn, hsn, hm⟩ := h
  obtain ⟨tj, htj, hti⟩ := htc
  obtain ⟨mj, hmj, hmv⟩ := hms
  obtain ⟨sj, hsj, hsv⟩ := hsn
  subst hm
  exact ⟨l, tj, mj, sj, asObj_inv hl, htj, hti, hmj, hmv, hsj, hsv⟩

theorem dietPlanResponse_validate_inv {v : Json} {r : DietPlanResponse}
    (h : DietPlanResponse.validate v = some r) :
    ∃ l dj, v = .jobj l ∧ jlookup l kDailyPlan = some dj ∧
      DailyPlan.validate dj = some r.daily_plan := by
  simp only [DietPlanResponse.validate, Option.bind_eq_some, Option.pure_def,
    Option.some.injEq] at h
  obtain ⟨l, hl, dp, hdp, hm⟩ := h
  obtain ⟨dj, hdj, hdv⟩ := hdp
  subst hm
  exact ⟨l, dj, asObj_inv hl, hdj, hdv⟩

theorem asArr_inv {v : Json} {xs : List Json} (h : asArr v = some xs) : v = .jarr xs := by
  cases v <;> simp_all [asArr]

theorem macro_validate_inv {v : Json} {mc : MacroNutrients}
    (h : MacroNutrients.validate v = some mc) :
    ∃ l pj cj fj, v = .jobj l ∧
      jlookup l kProtein = some pj ∧ jlookup l kCarbs = some cj ∧
      jlookup l kFat = some fj := by
  simp only [MacroNutrients.validate, Option.bind_eq_some, Option.some.injEq] at h
  obtain ⟨l, hl, p, hp, c, hc, f, hf, hm⟩ := h
  obtain ⟨pj, hpj, _⟩ := hp
  obtain ⟨cj, hcj, _⟩ := hc
  obtain ⟨fj, hfj, _⟩ := hf
  exact ⟨l, pj, cj, fj, asObj_inv hl, hpj, hcj, hfj⟩

theorem nb_validate_inv {v : Json} {nb : NutritionBreakdown}
    (h : NutritionBreakdown.validate v = some nb) :
    ∃ l ij cj pj cbj fj, v = .jobj l ∧
      jlookup l kItem = some ij ∧ jlookup l kCalories = some cj ∧
      jlookup l kProtein = some pj ∧ jlookup l kCarbs = some cbj ∧
      jlookup l kFat = some fj := by
  simp only [NutritionBreakdown.validate, Option.bind_eq_some, Option.some.injEq] at h
  obtain ⟨l, hl, it, hit, cal, hcal, p, hp, c, hc, f, hf, hm⟩ := h
  obtain ⟨ij, hij, _⟩ := hit
  obtain ⟨cj, hcj, _⟩ := hcal
  obtain ⟨pj, hpj, _⟩ := hp
  obtain ⟨cbj, hcbj, _⟩ := hc
  obtain ⟨fj, hfj, _⟩ := hf
  exact ⟨l, ij, cj, pj, cbj, fj, asObj_inv hl, hij, hcj, hpj, hcbj, hfj⟩

theorem mealNutrition_validate_inv {v : Json} {mn : MealNutrition}
    (h : MealNutrition.validate v = some mn) :
    ∃ l tj mj xs, v = .jobj l ∧
      jlookup l kTotalCalories = some tj ∧
      jlookup l kMacros = some mj ∧ MacroNutrients.validate mj = some mn.macros ∧
      jlookup l kBreakdown = some (.jarr xs) ∧
      optMapList NutritionBreakdown.validate xs = some mn.breakdown := by
  simp only [MealNutrition.validate, Option.bind_eq_some, Option.some.injEq] at h
  obtain ⟨l, hl, tc, htc, mc, hmc, bd, hbd, hm⟩ := h
  obtain ⟨tj, htj, _⟩ := htc
  obtain ⟨mj, hmj, hmv⟩ := hmc
  obtain ⟨bj, hbj, hba⟩ := hbd
  obtain ⟨xs, hxs, hml⟩ := hba
  subst hm
  rw [asArr_inv hxs] at hbj
  exact ⟨l, tj, mj, xs, asObj_inv hl, htj, hmj, hmv, hbj, hml⟩

theorem nbr_validate_inv {v : Json} {r : NutritionBreakdownResponse}
    (h : NutritionBreakdownResponse.validate v = some r) :
    ∃ l mj, v = .jobj l ∧ jlookup l kMealNutrition = some mj ∧
      MealNutrition.validate mj = some r.meal_nutrition := by
  simp only [NutritionBreakdownResponse.validate, Option.bind_eq_some,
    Option.some.injEq] at h
  obtain ⟨l, hl, mn, hmn, hm⟩ := h
  obtain ⟨mj, hmj, hmv⟩ := hmn
  subst hm
  exact ⟨l, mj, asObj_inv hl, hmj, hmv⟩

theorem optMapList_isSome {α : Type} {f : Json → Option α} :
    ∀ {xs : List Json} {l : List α}, optMapList f xs = some l →
      ∀ x ∈ xs, (f x).isSome = true := by
  intro xs
  induction xs with
  | nil => intro l h x hx; cases hx
  | cons y ys ih =>
    intro l h x hx
    simp only [optMapList] at h
    cases hfy : f y with
    | none => rw [hfy] at h; dsimp only at h; cases h
    | some a =>
      rw [hfy] at h
      cases hrest : optMapList f ys with
      | none => rw [hrest] at h; dsimp only at h; cases h
      | some l2 =>
        rw [hrest] at h
        rcases List.mem_cons.mp hx with rfl | hx2
        · rw [hfy]; rfl
        · exact ih hrest x hx2

theorem nbPresent_of_validate {x : Json} {nb : NutritionBreakdown}
    (h : NutritionBreakdown.validate x = some nb) : nbPresent x = true := by
  obtain ⟨l, ij, cj, pj, cbj, fj, rfl, h1, h2, h3, h4, h5⟩ := nb_validate_inv h
  simp [nbPresent, objHasKey_jobj, h1, h2, h3, h4, h5]

/-- C4: success of schema validation requires every field of the response
schemas to be present at every nesting level — an absent field always fails
validation, and no absent field is silently defaulted. -/
theorem c4_response_fields_required :
    (∀ v r, DietPlanResponse.validate v = some r → dietRequiredPresent v = true) ∧
    (∀ v r, NutritionBreakdownResponse.validate v = some r →
      nutritionRequiredPresent v = true) := by
  constructor
  · intro v r h
    obtain ⟨l, dj, rfl, hdj, hdv⟩ := dietPlanResponse_validate_inv h
    obtain ⟨l2, tj, mj, sj, rfl, htj, hti, hmj, hmv, hsj, hsv⟩ := dailyPlan_validate_inv hdv
    obtain ⟨l3, bj, lj, dj2, rfl, hbj, hbv, hlj, hlv, hdj2, hdv2⟩ := meals_validate_inv hmv
    obtain ⟨l4, ij4, cj4, rfl, hij4, hx4, hcj4, hy4⟩ := mealItems_validate_inv hbv
    obtain ⟨l5, ij5, cj5, rfl, hij5, hx5, hcj5, hy5⟩ := mealItems_validate_inv hlv
    obtain ⟨l6, ij6, cj6, rfl, hij6, hx6, hcj6, hy6⟩ := mealItems_validate_inv hdv2
    simp [dietRequiredPresent, jget_jobj, hdj, htj, hmj, hsj, hbj, hlj, hdj2,
      objHasKey_jobj, hij4, hcj4, hij5, hcj5, hij6, hcj6, mealItemsPresent]
  · intro v r h
    obtain ⟨l, mj, rfl, hmj, hmv⟩ := nbr_validate_inv h
    obtain ⟨l2, tj, mcj, xs, rfl, htj, hmcj, hmcv, hbj, hxs⟩ := mealNutrition_validate_inv hmv
    obtain ⟨l3, pj, cbj, fj, rfl, hpj, hcbj, hfj⟩ := macro_validate_inv hmcv
    have hall : xs.all nbPresent = true := by
      rw [List.all_eq_true]
      intro x hx
      have hs := optMapList_isSome hxs x hx
      obtain ⟨nb, hnb⟩ := Option.isSome_iff_exists.mp hs
      exact nbPresent_of_validate hnb
    simp [nutritionRequiredPresent, jget_jobj, hmj, htj, hmcj, hbj,
      objHasKey_jobj, hpj, hcbj, hfj, hall]

theorem c4_response_fields_required_witness :
    (DietPlanResponse.validate goodDietVal = some goodDietResp ∧
      dietRequiredPresent goodDietVal = true) ∧
    (NutritionBreakdownResponse.validate goodNutriVal = some goodNutriResp ∧
      nutritionRequiredPresent goodNutriVal = true) :=
  ⟨⟨rfl, c4_response_fields_required.1 goodDietVal goodDietResp rfl⟩,
   ⟨rfl, c4_response_fields_required.2 goodNutriVal goodNutriResp rfl⟩⟩

/-- C5 counterexample: a payload whose `meals.lunch.calories` holds the
string `"450"` is accepted by the validator (pydantic v2 lax mode coerces
numeric strings to `int`), with the string coerced to the integer 450 —
refuting the claim that any payload with a string there is rejected. The
lax coercion also accepts the all-zeros-decimal form `"450.0"` and the
underscored form `"1_000"`. -/
theorem c5_string_calories_cx :
    ((jget c5StrVal kDailyPlan).bind fun dp => (jget dp kMeals).bind fun ms =>
        (jget ms kLunch).bind fun lu => jget lu kCalories) =
      some (.jstr (("450").data)) ∧
    DietPlanResponse.validate c5StrVal =
      some ⟨⟨2000, ⟨⟨[("a").data], 400⟩, ⟨[("b").data], 450⟩, ⟨[("c").data], 600⟩⟩,
        [("d").data]⟩⟩ ∧
    asInt (.jstr (("450.0").data)) = some 450 ∧
    asInt (.jstr (("1_000").data)) = some 1000 :=
  ⟨rfl, rfl, rfl, rfl⟩

/-- C5 (amended): the validator rejects any payload in which `snacks` is
missing from `daily_plan`, and rejects any payload in which
`meals.lunch.calories` holds a string that does not represent an integer
(a numeric string such as `"450"` is instead coerced by pydantic). -/
theorem c5_validator_rejections :
    (∀ v, ((jget v kDailyPlan).bind fun dp => jget dp kSnacks) = none →
      DietPlanResponse.validate v = none) ∧
    (∀ v s, ((jget v kDailyPlan).bind fun dp => (jget dp kMeals).bind fun ms =>
        (jget ms kLunch).bind fun lu => jget lu kCalories) = some (.jstr s) →
      strToInt s = none → DietPlanResponse.validate v = none) := by
  constructor
  · intro v hpath
    cases hval : DietPlanResponse.validate v with
    | none => rfl
    | some r =>
      exfalso
      obtain ⟨l0, dj, rfl, hdj, hdv⟩ := dietPlanResponse_validate_inv hval
      obtain ⟨l2, tj, mj, sj, rfl, htj, hti, hmj, hmv, hsj, hsv⟩ := dailyPlan_validate_inv hdv
      rw [jget_jobj, hdj, Option.some_bind, jget_jobj, hsj] at hpath
      cases hpath
  · intro v s hpath hsi
    cases hval : DietPlanResponse.validate v with
    | none => rfl
    | some r =>
      exfalso
      obtain ⟨l0, dj, rfl, hdj, hdv⟩ := dietPlanResponse_validate_inv hval
      obtain ⟨l2, tj, mj, sj, rfl, htj, hti, hmj, hmv, hsj, hsv⟩ := dailyPlan_validate_inv hdv
      obtain ⟨l3, bj, lj, dj2, rfl, hbj, hbv, hlj, hlv, hdj2, hdv2⟩ := meals_validate_inv hmv
      obtain ⟨l5, ij5, cj5, rfl, hij5, hx5, hcj5, hy5⟩ := mealItems_validate_inv hlv
      rw [jget_jobj, hdj, Option.some_bind, jget_jobj, hmj, Option.some_bind,
        jget_jobj, hlj, Option.some_bind, jget_jobj, hcj5] at hpath
      injection hpath with hcs
      rw [hcs] at hy5
      simp only [asInt] at hy5
      rw [hsi] at hy5
      cases hy5

theorem c5_validator_rejections_witness :
    (((jget c5NoSnacksVal kDailyPlan).bind fun dp => jget dp kSnacks) = none ∧
      DietPlanResponse.validate c5NoSnacksVal = none) ∧
    (((jget c5BadStrVal kDailyPlan).bind fun dp => (jget dp kMeals).bind fun ms =>
        (jget ms kLunch).bind fun lu => jget lu kCalories) =
      some (.jstr (("abc").data)) ∧
      strToInt (("abc").data) = none ∧
      DietPlanResponse.validate c5BadStrVal = none) :=
  ⟨⟨rfl, c5_validator_rejections.1 c5NoSnacksVal rfl⟩,
   ⟨rfl, rfl, c5_validator_rejections.2 c5BadStrVal (("abc").data) rfl rfl⟩⟩

/-- C10: a `DietPlanRequest` payload may omit `health_conditions` and/or
`allergies` — validation accepts it and defaults the omitted field to the
empty list — while every other request field is required: a successful
validation implies all eight scalar fields are present (so any absence
fails), and valid bindings lacking the two list fields validate to the
defaulted request. -/
theorem c10_request_optional_defaults :
    (∀ v r, DietPlanRequest.validate v = some r →
      reqRequiredPresent v = true ∧
      (objHasKey v kHealthConditions = false → r.health_conditions = []) ∧
      (objHasKey v kAllergies = false → r.allergies = [])) ∧
    (∀ l nm ag gl ht cw tw rg cp,
      (jlookup l kName).bind asStr = some nm →
      (jlookup l kAge).bind asInt = some ag →
      (jlookup l kGoal).bind asStr = some gl →
      (jlookup l kHeight).bind asInt = some ht →
      (jlookup l kCurrentWeight).bind asFloat = some cw →
      (jlookup l kTargetWeight).bind asFloat = some tw →
      jlookup l kHealthConditions = none →
      (jlookup l kRegion).bind asStr = some rg →
      (jlookup l kCuisinePreference).bind asStr = some cp →
      jlookup l kAllergies = none →
      DietPlanRequest.validate (.jobj l) =
        some ⟨nm, ag, gl, ht, cw, tw, [], rg, cp, []⟩) := by
  constructor
  · intro v r h
    simp only [DietPlanRequest.validate, Option.bind_eq_some, Option.some.injEq] at h
    obtain ⟨l, hl, nm, ⟨nj, hnj, hnjs⟩, ag, ⟨aj, haj, hajs⟩, gl2, ⟨gj, hgj, hgjs⟩,
      ht2, ⟨hj, hhj, hhjs⟩, cw2, ⟨cwj, hcwj, hcwjs⟩, tw2, ⟨twj, htwj, htwjs⟩,
      hc2, hhc, rg2, ⟨rj, hrj, hrjs⟩, cp2, ⟨cj, hcj, hcjs⟩, al2, hal, hm⟩ := h
    obtain rfl := asObj_inv hl
    subst hm
    refine ⟨?_, ?_, ?_⟩
    · simp [reqRequiredPresent, objHasKey_jobj, hnj, haj, hgj, hhj, hcwj, htwj, hrj, hcj]
    · intro hf
      rw [objHasKey_jobj] at hf
      cases hk : jlookup l kHealthConditions with
      | some j => rw [hk] at hf; simp at hf
      | none =>
        unfold optStrListField at hhc
        rw [hk] at hhc
        dsimp only at hhc
        injection hhc with hh
        exact hh.symm
    · intro hf
      rw [objHasKey_jobj] at hf
      cases hk : jlookup l kAllergies with
      | some j => rw [hk] at hf; simp at hf
      | none =>
        unfold optStrListField at hal
        rw [hk] at hal
        dsimp only at hal
        injection hal with hh
        exact hh.symm
  · intro l nm ag gl ht cw tw rg cp h1 h2 h3 h4 h5 h6 h7 h8 h9 h10
    unfold DietPlanRequest.validate optStrListField
    rw [show asObj (.jobj l) = some l from rfl, Option.some_bind, h1, Option.some_bind,
      h2, Option.some_bind, h3, Option.some_bind, h4, Option.some_bind, h5,
      Option.some_bind, h6, Option.some_bind, h7]
    dsimp only
    rw [h8, Option.some_bind, h9, Option.some_bind, h10]
    rw [Option.some_bind]
    dsimp only
    rw [Option.some_bind]

theorem c10_request_optional_defaults_witness :
    ((jlookup reqBindings kName).bind asStr = some (("Sam").data) ∧
     jlookup reqBindings kHealthConditions = none ∧
     jlookup reqBindings kAllergies = none ∧
     DietPlanRequest.validate (.jobj reqBindings) = some reqResult) ∧
    (DietPlanRequest.validate reqVal = some reqResult ∧
     reqRequiredPresent reqVal = true ∧
     reqResult.health_conditions = [] ∧ reqResult.allergies = []) :=
  ⟨⟨rfl, rfl, rfl,
    c10_request_optional_defaults.2 reqBindings (("Sam").data) 30 (("Weight Loss").data)
      175 ((80 : Int) : ℚ) ((70 : Int) : ℚ) (("India").data) (("Vegetarian").data)
      rfl rfl rfl rfl rfl rfl rfl rfl rfl rfl⟩,
   ⟨rfl, (c10_request_optional_defaults.1 reqVal reqResult rfl).1,
    (c10_request_optional_defaults.1 reqVal reqResult rfl).2.1 rfl,
    (c10_request_optional_defaults.1 reqVal reqResult rfl).2.2 rfl⟩⟩

theorem occursIn_rfl (pat : List Char) : occursIn pat pat := ⟨[], [], by simp⟩

theorem occursIn_append_right {pat t : List Char} (h : occursIn pat t) (s : List Char) :
    occursIn pat (s ++ t) := by
  obtain ⟨a, b, rfl⟩ := h
  exact ⟨s ++ a, b, by simp [List.append_assoc]⟩

theorem occursIn_append_left {pat s : List Char} (h : occursIn pat s) (t : List Char) :
    occursIn pat (s ++ t) := by
  obtain ⟨a, b, rfl⟩ := h
  exact ⟨a, b ++ t, by simp [List.append_assoc]⟩

/-- C6: the diet-plan prompt contains every scalar request field's rendered
value verbatim (name, age, goal, height, current_weight, target_weight,
region, cuisine_preference), and renders the placeholder `None` for each
empty list field. -/
theorem c6_prompt_contains_fields (r : DietPlanRequest) :
    occursIn r.name (construct_diet_plan_prompt r) ∧
    occursIn (intStr r.age) (construct_diet_plan_prompt r) ∧
    occursIn r.goal (construct_diet_plan_prompt r) ∧
    occursIn (intStr r.height) (construct_diet_plan_prompt r) ∧
    occursIn (pyFloatStr r.current_weight) (construct_diet_plan_prompt r) ∧
    occursIn (pyFloatStr r.target_weight) (construct_diet_plan_prompt r) ∧
    occursIn r.region (construct_diet_plan_prompt r) ∧
    occursIn r.cuisine_preference (construct_diet_plan_prompt r) ∧
    (r.health_conditions = [] → occursIn noneTok (construct_diet_plan_prompt r)) ∧
    (r.allergies = [] → occursIn noneTok (construct_diet_plan_prompt r)) := by
  unfold construct_diet_plan_prompt
  refine ⟨?_, ?_, ?_, ?_, ?_, ?_, ?_, ?_, ?_, ?_⟩
  · repeat' first
      | with_reducible exact occursIn_append_right (occursIn_rfl _) _
      | with_reducible apply occursIn_append_left
  · repeat' first
      | with_reducible exact occursIn_append_right (occursIn_rfl _) _
      | with_reducible apply occursIn_append_left
  · repeat' first
      | with_reducible exact occursIn_append_right (occursIn_rfl _) _
      | with_reducible apply occursIn_append_left
  · repeat' first
      | with_reducible exact occursIn_append_right (occursIn_rfl _) _
      | with_reducible apply occursIn_append_left
  · repeat' first
      | with_reducible exact occursIn_append_right (occursIn_rfl _) _
      | with_reducible apply occursIn_append_left
  · repeat' first
      | with_reducible exact occursIn_append_right (occursIn_rfl _) _
      | with_reducible apply occursIn_append_left
  · repeat' first
      | with_reducible exact occursIn_append_right (occursIn_rfl _) _
      | with_reducible apply occursIn_append_left
  · repeat' first
      | with_reducible exact occursIn_append_right (occursIn_rfl _) _
      | with_reducible apply occursIn_append_left
  · intro h
    rw [h, show renderStrList ([] : List (List Char)) = noneTok from rfl]
    repeat' first
      | with_reducible exact occursIn_append_right (occursIn_rfl _) _
      | with_reducible apply occursIn_append_left
  · intro h
    rw [h, show renderStrList ([] : List (List Char)) = noneTok from rfl]
    repeat' first
      | with_reducible exact occursIn_append_right (occursIn_rfl _) _
      | with_reducible apply occursIn_append_left

theorem c6_prompt_contains_fields_witness :
    reqResult.health_conditions = [] ∧ reqResult.allergies = [] ∧
    occursIn reqResult.name (construct_diet_plan_prompt reqResult) ∧
    occursIn noneTok (construct_diet_plan_prompt reqResult) :=
  ⟨rfl, rfl, (c6_prompt_contains_fields reqResult).1,
   (c6_prompt_contains_fields reqResult).2.2.2.2.2.2.2.2.1 rfl⟩

theorem allStr_map : ∀ {l : List Json} {ss : List (List Char)},
    allStr l = some ss → ss.map Json.jstr = l := by
  intro l
  induction l with
  | nil =>
    intro ss h
    simp only [allStr, Option.some.injEq] at h
    subst h
    rfl
  | cons x xs ih =>
    intro ss h
    cases x with
    | jstr s =>
      simp only [allStr] at h
      rw [Option.map_eq_some'] at h
      obtain ⟨a, ha, hss⟩ := h
      subst hss
      simp [List.map_cons, ih ha]
    | jnull => simp only [allStr] at h; cases h
    | jbool b => simp only [allStr] at h; cases h
    | jint n => simp only [allStr] at h; cases h
    | jnum q => simp only [allStr] at h; cases h
    | jarr a => simp only [allStr] at h; cases h
    | jobj o => simp only [allStr] at h; cases h

theorem mealItems_strict_sound {v : Json} {m : MealItems}
    (h : MealItems.strict v = some m) :
    MealItems.validate v = some m ∧ MealItems.toJson m = v := by
  unfold MealItems.strict at h
  split at h
  case h_2 => cases h
  case h_1 k1 l k2 c =>
    split at h
    case isFalse => cases h
    case isTrue hk =>
      obtain ⟨hk1, hk2⟩ := hk
      subst hk1
      subst hk2
      rw [Option.map_eq_some'] at h
      obtain ⟨ss, hss, hm⟩ := h
      subst hm
      constructor
      · have hv : MealItems.validate (.jobj [(kItems, .jarr l), (kCalories, .jint c)])
            = (allStr l).bind (fun its => some ⟨its, c⟩) := rfl
        rw [hv, hss, Option.some_bind]
      · show MealItems.toJson ⟨ss, c⟩ = _
        unfold MealItems.toJson
        rw [allStr_map hss]

theorem meals_strict_sound {v : Json} {ms : Meals}
    (h : Meals.strict v = some ms) :
    Meals.validate v = some ms ∧ Meals.toJson ms = v := by
  unfold Meals.strict at h
  split at h
  case h_2 => cases h
  case h_1 k1 b k2 lu k3 d =>
    split at h
    case isFalse => cases h
    case isTrue hk =>
      obtain ⟨hk1, hk2, hk3⟩ := hk
      subst hk1
      subst hk2
      subst hk3
      simp only [Option.bind_eq_some, Option.some.injEq] at h
      obtain ⟨b2, hb2, lu2, hlu2, d2, hd2, hm⟩ := h
      subst hm
      obtain ⟨hbv, hbj⟩ := mealItems_strict_sound hb2
      obtain ⟨hlv, hlj⟩ := mealItems_strict_sound hlu2
      obtain ⟨hdv, hdj⟩ := mealItems_strict_sound hd2
      constructor
      · have hv : Meals.validate (.jobj [(kBreakfast, b), (kLunch, lu), (kDinner, d)])
            = (MealItems.validate b).bind (fun b3 =>
                (MealItems.validate lu).bind (fun lu3 =>
                  (MealItems.validate d).bind (fun d3 =>
                    some ⟨b3, lu3, d3⟩))) := rfl
        rw [hv, hbv, Option.some_bind, hlv, Option.some_bind, hdv, Option.some_bind]
      · show Meals.toJson ⟨b2, lu2, d2⟩ = _
        unfold Meals.toJson
        dsimp only
        rw [hbj, hlj, hdj]

theorem dailyPlan_strict_sound {v : Json} {d : DailyPlan}
    (h : DailyPlan.strict v = some d) :
    DailyPlan.validate v = some d ∧ DailyPlan.toJson d = v := by
  unfold DailyPlan.strict at h
  split at h
  case h_2 => cases h
  case h_1 k1 tc k2 ms k3 sn =>
    split at h
    case isFalse => cases h
    case isTrue hk =>
      obtain ⟨hk1, hk2, hk3⟩ := hk
      subst hk1
      subst hk2
      subst hk3
      simp only [Option.bind_eq_some, Option.some.injEq] at h
      obtain ⟨ms2, hms2, sn2, hsn2, hm⟩ := h
      subst hm
      obtain ⟨hmv, hmj⟩ := meals_strict_sound hms2
      constructor
      · have hv : DailyPlan.validate (.jobj [(kTotalCalories, .jint tc), (kMeals, ms),
            (kSnacks, .jarr sn)])
            = (Meals.validate ms).bind (fun ms3 =>
                (allStr sn).bind (fun sn3 => some ⟨tc, ms3, sn3⟩)) := rfl
        rw [hv, hmv, Option.some_bind, hsn2, Option.some_bind]
      · show DailyPlan.toJson ⟨tc, ms2, sn2⟩ = _
        unfold DailyPlan.toJson
        dsimp only
        rw [hmj, allStr_map hsn2]

theorem dietPlanResponse_strict_sound {v : Json} {r : DietPlanResponse}
    (h : DietPlanResponse.strict v = some r) :
    DietPlanResponse.validate v = some r ∧ DietPlanResponse.toJson r = v := by
  unfold DietPlanResponse.strict at h
  split at h
  case h_2 => cases h
  case h_1 k1 dp =>
    split at h
    case isFalse => cases h
    case isTrue hk =>
      subst hk
      rw [Option.map_eq_some'] at h
      obtain ⟨d, hd, hm⟩ := h
      subst hm
      obtain ⟨hdv, hdj⟩ := dailyPlan_strict_sound hd
      constructor
      · have hv : DietPlanResponse.validate (.jobj [(kDailyPlan, dp)])
            = (DailyPlan.validate dp).bind (fun d2 => some ⟨d2⟩) := rfl
        rw [hv, hdv, Option.some_bind]
      · show DietPlanResponse.toJson ⟨d⟩ = _
        unfold DietPlanResponse.toJson
        dsimp only
        rw [hdj]

set_option maxRecDepth 10000 in
/-- C7 counterexample: a syntactically valid JSON string conforming to the
prompt's example shape (one snack is the string `` ``` ``) on which the
extractor fails instead of round-tripping. -/
theorem c7_roundtrip_cx :
    jsonParse cxSnackStr = Except.ok cxSnackVal ∧
    (DietPlanResponse.strict cxSnackVal).isSome = true ∧
    (parse_gemini_response cxSnackStr).isOk = false :=
  ⟨rfl, rfl, rfl⟩

/-- C7 (amended): every syntactically valid JSON string that conforms to the
prompt's example shape and contains no fence marker, run through the
extractor and then the schema validator, succeeds and yields a response
object whose serialization equals the input JSON value field-for-field. -/
theorem c7_roundtrip (s : List Char) (v : Json) (r : DietPlanResponse)
    (hparse : jsonParse s = Except.ok v)
    (hnf : containsSub s fence3 = false)
    (hstrict : DietPlanResponse.strict v = some r) :
    parse_gemini_response s = Except.ok v ∧
    DietPlanResponse.validate v = some r ∧
    DietPlanResponse.toJson r = v := by
  have hfm : firstMatch fence3 s = none := by
    unfold containsSub at hnf
    cases hfm2 : firstMatch fence3 s with
    | none => rfl
    | some k => rw [hfm2] at hnf; cases hnf
  obtain ⟨hval, hjson⟩ := dietPlanResponse_strict_sound hstrict
  refine ⟨?_, hval, hjson⟩
  unfold parse_gemini_response
  rw [extract_nofence hfm, hparse]

set_option maxRecDepth 10000 in
theorem c7_roundtrip_witness :
    jsonParse goodDietStr = Except.ok goodDietVal ∧
    containsSub goodDietStr fence3 = false ∧
    DietPlanResponse.strict goodDietVal = some goodDietResp ∧
    (parse_gemini_response goodDietStr = Except.ok goodDietVal ∧
     DietPlanResponse.validate goodDietVal = some goodDietResp ∧
     DietPlanResponse.toJson goodDietResp = goodDietVal) :=
  ⟨rfl, rfl, rfl, c7_roundtrip goodDietStr goodDietVal goodDietResp rfl rfl rfl⟩
